import Mathlib

/-!
# Verification of the SSOT GraphRAG indexing / query / impact / sync core

Shallow embedding of the core components of the repository:
* `demeter/core/ssot/graphrag/indexer/ssot-indexer.py`  (class `SSOTIndexer`)
* `demeter/core/ssot/graphrag/query/ssot-query.py`      (class `SSOTQuery`)
* `demeter/core/ssot/graphrag/query/impact-analyzer.py` (class `ImpactAnalyzer`)
* `demeter/core/ssot/graphrag/sync/sync-engine.py`      (class `SyncEngine`)

Python dict/list/str values flowing through the indexer and sync engine are
modelled by the inductive type `Json`.  Python's `datetime.now().isoformat()`
is modelled as an explicit `now : String` parameter threaded through the
functions that call it.  File contents are modelled as explicit values; a
file that may be absent is an `Option`.
-/

/-- A YAML/JSON-ish value, the shape of the Python dicts the tools pass around.
`obj` keeps the insertion order of the Python dict. -/
inductive Json where
  | str : String → Json
  | num : Int → Json
  | bool : Bool → Json
  | null : Json
  | arr : List Json → Json
  | obj : List (String × Json) → Json

/-- Python `d.get(k)` on a dict value: first binding of `k`, if any. -/
def Json.lookup (kvs : List (String × Json)) (k : String) : Option Json :=
  match kvs with
  | [] => none
  | (k', v) :: rest => if k' = k then some v else Json.lookup rest k

/-- Python `spec.get(k, d)` where `spec` is a dict; a non-dict receives the default. -/
def Json.getD (j : Json) (k : String) (d : Json) : Json :=
  match j with
  | .obj kvs => (Json.lookup kvs k).getD d
  | _ => d

/-- Python `spec.get(k)` (default `None`). -/
def Json.get? (j : Json) (k : String) : Option Json :=
  match j with
  | .obj kvs => Json.lookup kvs k
  | _ => none

/-- `entity['id']` read as a string (the indexer always writes a string there;
a non-string id reads as `""`). -/
def Json.idStr (j : Json) : String :=
  match j.get? "id" with
  | some (.str s) => s
  | _ => ""

/-- `entity.get('type')` read as a string (defaulting to `""`). -/
def Json.typeStr (j : Json) : String :=
  match j.get? "type" with
  | some (.str s) => s
  | _ => ""

/-- Insertion sort of key/value pairs by key, modelling the stable
`sort_keys=True` ordering of `json.dumps` (string keys are unique in a dict,
so stability is irrelevant). -/
def sortInsert (p : String × Json) : List (String × Json) → List (String × Json)
  | [] => [p]
  | q :: rest => if p.1 ≤ q.1 then p :: q :: rest else q :: sortInsert p rest

def sortByKey : List (String × Json) → List (String × Json)
  | [] => []
  | p :: rest => sortInsert p (sortByKey rest)

mutual
/-- Recursively sort every object of the tree by key, the canonical form
`json.dumps(..., sort_keys=True)` serializes. -/
def Json.sortKeys : Json → Json
  | .str s => .str s
  | .num n => .num n
  | .bool b => .bool b
  | .null => .null
  | .arr xs => .arr (Json.sortKeysList xs)
  | .obj kvs => .obj (sortByKey (Json.sortKeysObj kvs))

def Json.sortKeysList : List Json → List Json
  | [] => []
  | x :: xs => Json.sortKeys x :: Json.sortKeysList xs

def Json.sortKeysObj : List (String × Json) → List (String × Json)
  | [] => []
  | (k, v) :: rest => (k, Json.sortKeys v) :: Json.sortKeysObj rest
end

mutual
/-- Plain serialization of an (already key-sorted) tree. -/
def Json.dumpsRaw : Json → String
  | .str s => "\"" ++ s ++ "\""
  | .num n => toString n
  | .bool b => if b then "true" else "false"
  | .null => "null"
  | .arr xs => "[" ++ Json.dumpsList xs ++ "]"
  | .obj kvs => "\x7b" ++ Json.dumpsObj kvs ++ "\x7d"

def Json.dumpsList : List Json → String
  | [] => ""
  | [x] => Json.dumpsRaw x
  | x :: y :: rest => Json.dumpsRaw x ++ ", " ++ Json.dumpsList (y :: rest)

def Json.dumpsObj : List (String × Json) → String
  | [] => ""
  | [(k, v)] => "\"" ++ k ++ "\": " ++ Json.dumpsRaw v
  | (k, v) :: q :: rest =>
      "\"" ++ k ++ "\": " ++ Json.dumpsRaw v ++ ", " ++ Json.dumpsObj (q :: rest)
end

/-- Canonical serialization, modelling
`json.dumps(data, sort_keys=True, ensure_ascii=False)` (string escaping is not
modelled; only determinism and stable key order matter to the code). -/
def Json.dumps (j : Json) : String :=
  j.sortKeys.dumpsRaw

/-- `SSOTIndexer._generate_hash` / `SyncEngine._generate_hash`:
`hashlib.sha256(json.dumps(data, sort_keys=True, ensure_ascii=False)
.encode()).hexdigest()[:16]`.  SHA-256 is a pure library function; it is
modelled by the canonical serialization itself, which preserves exactly what
the code relies on: a deterministic digest of the content. -/
def generate_hash (data : Json) : String :=
  Json.dumps data

/-! ## Indexer (`ssot-indexer.py`) -/

/-- The parsed `framework-requirements.yaml` sections used by the indexer.
Each section is a dict id ↦ spec, in document order.  A missing section
behaves like an empty one (the Python code guards each with
`if section in fr_data`, and iterating an empty dict is a no-op). -/
structure FrameworkReq where
  functional_requirements : List (String × Json)
  non_functional_requirements : List (String × Json)
  units_of_work : List (String × Json)

/-- The SSOT document tree produced by `load_ssot_data`:
`framework_requirements` (absent key modelled as `none`), `extensions`
(category ↦ name ↦ spec) and `contracts` (stem ↦ spec).  The `base` section
is loaded but never read by `extract_entities`/`extract_relationships`. -/
structure SSOTData where
  framework_requirements : Option FrameworkReq
  extensions : List (String × List (String × Json))
  contracts : List (String × Json)

/-- Entity built for a functional requirement (loop at
`extract_entities`, `ssot-indexer.py:92-107`). -/
def mkFREntity (now : String) (p : String × Json) : Json :=
  .obj [("id", .str p.1),
        ("type", .str "functional_requirement"),
        ("title", p.2.getD "title" (.str "")),
        ("description", p.2.getD "description" (.str "")),
        ("category", p.2.getD "category" (.str "")),
        ("priority", p.2.getD "priority" (.str "")),
        ("acceptance_criteria", p.2.getD "acceptance_criteria" (.arr [])),
        ("metadata", .obj [("source", .str "framework_requirements"),
                           ("last_updated", .str now),
                           ("hash", .str (generate_hash p.2))])]

/-- Entity built for a non-functional requirement (`ssot-indexer.py:111-127`). -/
def mkNFREntity (now : String) (p : String × Json) : Json :=
  .obj [("id", .str p.1),
        ("type", .str "non_functional_requirement"),
        ("title", p.2.getD "title" (.str "")),
        ("description", p.2.getD "description" (.str "")),
        ("category", p.2.getD "category" (.str "")),
        ("priority", p.2.getD "priority" (.str "")),
        ("requirements", p.2.getD "requirements" (.arr [])),
        ("measurement", p.2.getD "measurement" (.str "")),
        ("metadata", .obj [("source", .str "framework_requirements"),
                           ("last_updated", .str now),
                           ("hash", .str (generate_hash p.2))])]

/-- Entity built for a unit of work (`ssot-indexer.py:131-149`). -/
def mkUoWEntity (now : String) (p : String × Json) : Json :=
  .obj [("id", .str p.1),
        ("type", .str "unit_of_work"),
        ("name", p.2.getD "name" (.str "")),
        ("goal", p.2.getD "goal" (.str "")),
        ("layer", p.2.getD "layer" (.str "")),
        ("priority", p.2.getD "priority" (.str "")),
        ("effort", p.2.getD "effort" (.str "")),
        ("implements", p.2.getD "implements" (.arr [])),
        ("dependencies", p.2.getD "dependencies" (.arr [])),
        ("acceptance_criteria", p.2.getD "acceptance_criteria" (.arr [])),
        ("metadata", .obj [("source", .str "framework_requirements"),
                           ("last_updated", .str now),
                           ("hash", .str (generate_hash p.2))])]

/-- Entity built for a contract (`ssot-indexer.py:153-170`). -/
def mkContractEntity (now : String) (p : String × Json) : Json :=
  .obj [("id", p.2.getD "contract_id" (.str p.1)),
        ("type", .str "contract"),
        ("title", p.2.getD "title" (.str "")),
        ("applies_to", p.2.getD "applies_to" (.obj [])),
        ("preconditions", p.2.getD "preconditions" (.arr [])),
        ("postconditions", p.2.getD "postconditions" (.arr [])),
        ("invariants", p.2.getD "invariants" (.arr [])),
        ("performance", p.2.getD "performance" (.obj [])),
        ("security", p.2.getD "security" (.obj [])),
        ("metadata", .obj [("source", .str ("contracts/" ++ p.1)),
                           ("last_updated", .str now),
                           ("hash", .str (generate_hash p.2))])]

/-- Entity built for an extension (`ssot-indexer.py:176-191`). -/
def mkExtEntity (now : String) (category : String) (p : String × Json) : Json :=
  .obj [("id", .str (category ++ "_" ++ p.1)),
        ("type", .str "extension"),
        ("name", p.2.getD "name" (.str p.1)),
        ("category", .str category),
        ("description", p.2.getD "description" (.str "")),
        ("functional_requirements", p.2.getD "functional_requirements" (.obj [])),
        ("non_functional_requirements", p.2.getD "non_functional_requirements" (.obj [])),
        ("units_of_work", p.2.getD "units_of_work" (.obj [])),
        ("metadata", .obj [("source", .str ("extensions/" ++ category ++ "/" ++ p.1)),
                           ("last_updated", .str now),
                           ("hash", .str (generate_hash p.2))])]

/-- `SSOTIndexer.extract_entities` (`ssot-indexer.py:84-193`): FRs, then NFRs,
then UoWs, then contracts, then extensions, in document order. -/
def extract_entities (d : SSOTData) (now : String) : List Json :=
  (match d.framework_requirements with
   | none => []
   | some fr =>
       fr.functional_requirements.map (mkFREntity now)
       ++ fr.non_functional_requirements.map (mkNFREntity now)
       ++ fr.units_of_work.map (mkUoWEntity now))
  ++ d.contracts.map (mkContractEntity now)
  ++ (d.extensions.map (fun c => c.2.map (mkExtEntity now c.1))).flatten

/-- One `implements` relationship record (`ssot-indexer.py:206-214`).
The target is whatever value appears in the `implements` list. -/
def mkImplementsRel (now : String) (uow_id : String) (req : Json) : Json :=
  .obj [("source", .str uow_id),
        ("target", req),
        ("type", .str "implements"),
        ("metadata", .obj [("created", .str now),
                           ("source_file", .str "framework_requirements")])]

/-- One `depends_on` relationship record (`ssot-indexer.py:220-228`). -/
def mkDependsRel (now : String) (uow_id : String) (dep : Json) : Json :=
  .obj [("source", .str uow_id),
        ("target", dep),
        ("type", .str "depends_on"),
        ("metadata", .obj [("created", .str now),
                           ("source_file", .str "framework_requirements")])]

/-- One `validates` relationship record (`ssot-indexer.py:238-246`). -/
def mkValidatesRel (now : String) (contract_stem : String) (src tgt : Json) : Json :=
  .obj [("source", src),
        ("target", tgt),
        ("type", .str "validates"),
        ("metadata", .obj [("created", .str now),
                           ("source_file", .str ("contracts/" ++ contract_stem))])]

/-- `uow_spec.get('implements', [])` / `.get('dependencies', [])` as a list of
targets: iterating a non-list value is a type error in Python, but the
indexer only ever feeds YAML lists here; a non-list reads as `[]`. -/
def Json.asList (j : Json) : List Json :=
  match j with
  | .arr xs => xs
  | _ => []

/-- Relationships a single UoW contributes (`ssot-indexer.py:203-229`):
one `implements` per entry of `implements`, then one `depends_on` per entry
of `dependencies`. -/
def uowRels (now : String) (p : String × Json) : List Json :=
  (p.2.getD "implements" (.arr [])).asList.map (mkImplementsRel now p.1)
  ++ (p.2.getD "dependencies" (.arr [])).asList.map (mkDependsRel now p.1)

/-- Python truthiness of a value (`if entity_name:`). -/
def Json.truthy : Json → Bool
  | .str s => s ≠ ""
  | .num n => n ≠ 0
  | .bool b => b
  | .null => false
  | .arr xs => !xs.isEmpty
  | .obj kvs => !kvs.isEmpty

/-- Relationships a single contract contributes (`ssot-indexer.py:233-247`):
a `validates` edge when `applies_to.entity_type == 'uow'` and
`applies_to.entity_name` is truthy. -/
def contractRels (now : String) (p : String × Json) : List Json :=
  match (p.2.getD "applies_to" (.obj [])).get? "entity_type" with
  | some (.str ty) =>
      if ty = "uow" then
        match (p.2.getD "applies_to" (.obj [])).get? "entity_name" with
        | some name =>
            if name.truthy then
              [mkValidatesRel now p.1 (p.2.getD "contract_id" (.str p.1)) name]
            else []
        | none => []
      else []
  | _ => []

/-- `SSOTIndexer.extract_relationships` (`ssot-indexer.py:195-249`). -/
def extract_relationships (d : SSOTData) (now : String) : List Json :=
  (match d.framework_requirements with
   | none => []
   | some fr => (fr.units_of_work.map (uowRels now)).flatten)
  ++ (d.contracts.map (contractRels now)).flatten

/-- A *dangling reference* (spec §3 / glossary): a persisted relationship whose
target does not resolve to any extracted entity's id.  The indexer itself
performs no such check — it records every relationship — so the dangling
references of an index are exactly the recorded relationships whose target
matches no entity. -/
def targetResolves (entities : List Json) (target : Json) : Bool :=
  match target with
  | .str t => entities.any (fun e => e.idStr == t)
  | _ => false

def danglingReferences (entities rels : List Json) : List Json :=
  rels.filter (fun r => !(targetResolves entities (r.getD "target" .null)))

/-- Counts per entity type for `metadata.json` (`ssot-indexer.py:274-275`). -/
def entityTypeCount (entities : List Json) (ty : String) : Nat :=
  (entities.filter (fun e => e.typeStr == ty)).length

def relTypeCount (rels : List Json) (ty : String) : Nat :=
  (rels.filter (fun r => r.typeStr == ty)).length

/-- The `metadata.json` summary written by `save_graphrag_data`
(`ssot-indexer.py:270-278`). -/
def mkIndexMetadata (entities rels : List Json) (now : String) : Json :=
  .obj [("indexed_at", .str now),
        ("total_entities", .num entities.length),
        ("total_relationships", .num rels.length),
        ("entity_types", .obj
          ([ "functional_requirement", "non_functional_requirement", "unit_of_work",
             "contract", "bdd_scenario", "extension", "dependency"].map
            (fun ty => (ty, Json.num (entityTypeCount entities ty))))),
        ("relationship_types", .obj
          ([ "implements", "depends_on", "extends", "validates", "covers",
             "conflicts_with"].map
            (fun ty => (ty, Json.num (relTypeCount rels ty)))))]

/-- The three artifacts of the index store
(`entities.json`, `relationships.json`, `metadata.json`). -/
structure IndexStore where
  entitiesFile : List Json
  relationshipsFile : List Json
  metadataFile : Json

/-- The states of the index store a reader can observe while
`SSOTIndexer.save_graphrag_data` (`ssot-indexer.py:256-287`) runs: the code
performs three sequential direct `open(file, 'w')` writes — entities, then
relationships, then metadata — with no temp-file-and-rename step.  Each
element is the store after zero, one, two and three of these writes
(generously treating each single-file write as atomic). -/
def save_graphrag_data_states (old : IndexStore) (entities rels : List Json)
    (now : String) : List IndexStore :=
  let s1 : IndexStore := { old with entitiesFile := entities }
  let s2 : IndexStore := { s1 with relationshipsFile := rels }
  let s3 : IndexStore := { s2 with metadataFile := mkIndexMetadata entities rels now }
  [old, s1, s2, s3]

/-- Return value of `SSOTIndexer.index_ssot` (`ssot-indexer.py:310-314`). -/
structure IndexResult where
  entities_count : Nat
  relationships_count : Nat
  status : String
deriving DecidableEq, Repr

/-- Everything one `index_ssot` run produces. -/
structure IndexRun where
  entities : List Json
  relationships : List Json
  states : List IndexStore
  result : IndexResult

/-- `SSOTIndexer.index_ssot` (`ssot-indexer.py:289-314`): extract entities and
relationships from the loaded SSOT data, write the three artifacts, and
report counts with status `"success"`. -/
def index_ssot (d : SSOTData) (now : String) (old : IndexStore) : IndexRun :=
  let entities := extract_entities d now
  let rels := extract_relationships d now
  { entities := entities, relationships := rels,
    states := save_graphrag_data_states old entities rels now,
    result := ⟨entities.length, rels.length, "success"⟩ }

/-- Erase the run-timestamp fields (`metadata.last_updated` on entities,
`metadata.created` on relationships) from an indexer record; everything else
is kept verbatim. -/
def stripRunTimestamps (j : Json) : Json :=
  match j with
  | .obj kvs => .obj (kvs.map (fun kv =>
      if kv.1 = "metadata" then
        (kv.1, match kv.2 with
               | .obj mkvs => Json.obj (mkvs.filter
                   (fun m => !(m.1 == "last_updated") && !(m.1 == "created")))
               | v => v)
      else kv))
  | j => j

/-- The `metadata.hash` content hash stored on an indexer entity. -/
def entityStoredHash (e : Json) : Option Json :=
  (e.getD "metadata" (.obj [])).get? "hash"

/-! ## String utilities shared by the query layer

Models of the Python string operations `str.split()`, `str.count`,
`needle in hay`, and `str.lower` used by `ssot-query.py`. -/

/-- `needle` occurs at the head of `hay` (both as character lists). -/
def leadsWith : List Char → List Char → Bool
  | [], _ => true
  | _ :: _, [] => false
  | a :: as', b :: bs => a == b && leadsWith as' bs

/-- Auxiliary scanner for `str.count`: counts non-overlapping occurrences,
resuming after each match (for a nonempty needle, dropping
`needle.length - 1` of the tail equals dropping `needle.length` of the
whole input).  The fuel is the input length: every step consumes at least
one character, so the fuel-exhaustion branch is unreachable (structural
recursion on the fuel keeps the definition kernel-reducible). -/
def countOccAux (needle : List Char) : Nat → List Char → Nat
  | 0, _ => 0
  | _ + 1, [] => 0
  | fuel + 1, c :: cs =>
      if leadsWith needle (c :: cs) then
        1 + countOccAux needle fuel (cs.drop (needle.length - 1))
      else countOccAux needle fuel cs

/-- Python `hay.count(needle)`: non-overlapping occurrences; an empty needle
counts `len(hay) + 1`. -/
def countOcc (needle hay : List Char) : Nat :=
  if needle.isEmpty then hay.length + 1 else countOccAux needle hay.length hay

/-- Python `needle in hay` (substring containment); an empty needle is
contained everywhere. -/
def containsSubAux (needle : List Char) : List Char → Bool
  | [] => needle.isEmpty
  | c :: cs => leadsWith needle (c :: cs) || containsSubAux needle cs

def strContainsSub (hay needle : String) : Bool :=
  containsSubAux needle.toList hay.toList

/-- Stable insertion sort: `x` is placed before the first element `y` with
`le x y`, so elements that compare equal keep their original order — the
semantics of Python's stable `list.sort` (any two stable sorts agree, and
this structural implementation reduces in the kernel). -/
def insertStable {α : Type} (le : α → α → Bool) (x : α) : List α → List α
  | [] => [x]
  | y :: ys => if le x y then x :: y :: ys else y :: insertStable le x ys

/-- Python `list.sort(key=..., reverse=True)` with comparator `le`:
`le a b` means `a` may precede `b`. -/
def sortStable {α : Type} (le : α → α → Bool) (l : List α) : List α :=
  l.foldr (insertStable le) []

/-- Python `str.split()` (no argument): split on runs of whitespace,
discarding empty pieces.  `acc` collects the current word reversed. -/
def splitWSAux : List Char → List Char → List String
  | [], acc => if acc.isEmpty then [] else [String.mk acc.reverse]
  | c :: cs, acc =>
      if c.isWhitespace then
        if acc.isEmpty then splitWSAux cs []
        else String.mk acc.reverse :: splitWSAux cs []
      else splitWSAux cs (c :: acc)

def splitWS (s : String) : List String :=
  splitWSAux s.toList []

/-- Python `len(text.split())`. -/
def wordCount (s : String) : Nat :=
  (splitWS s).length

/-- Python `str.lower()` (ASCII case folding, which covers every string the
tools construct). `String.toLower` itself is defined by well-founded
recursion over byte positions and does not reduce in the kernel, so the
character-list equivalent is used. -/
def strToLower (s : String) : String :=
  String.mk (s.toList.map Char.toLower)

/-! ## Query / impact data model (`ssot-query.py`, `impact-analyzer.py`)

Entities and relationships as the query layer reads them back from the
index store.  String fields that an indexer record may lack (so that Python
`entity.get(k)` would return `None`) are `Option`s; fields read with a
default (`entity.get(k, '')` / `entity.get(k, [])`) that every producing
record carries are plain values with that default. -/

structure Entity where
  id : String
  type : String
  title : Option String := none
  name : Option String := none
  description : Option String := none
  acceptance_criteria : List String := []
  layer : Option String := none
  applies_to_entity_type : Option String := none
  applies_to_entity_name : Option String := none
deriving DecidableEq, Repr

structure Relationship where
  source : String
  target : String
  type : String
deriving DecidableEq, Repr

/-- The store a query engine instance loads at construction:
`_load_entities` / `_load_relationships` return the file contents when the
file exists and `[]` otherwise (`ssot-query.py:361-375`,
`impact-analyzer.py:274-288`). -/
def load_entities (file : Option (List Entity)) : List Entity :=
  file.getD []

def load_relationships (file : Option (List Relationship)) : List Relationship :=
  file.getD []

/-- A pattern record from the knowledge store (`knowledge['patterns']`). -/
structure PatternData where
  category : Option String := none
  frequency : Nat := 0
deriving DecidableEq, Repr

/-- The in-memory state of an `SSOTQuery` instance: indexed entities and
relationships, accumulated pattern knowledge, and the set of UoW ids for
which a BDD feature file exists on disk (the file-existence signal scanned
at `ssot-query.py:216-226`). -/
structure QueryState where
  entities : List Entity
  relationships : List Relationship
  patterns : List (String × PatternData) := []
  bddUowIds : List String := []

/-- `SSOTQuery._get_entity_by_id` (`ssot-query.py:509-514`): first match. -/
def get_entity_by_id (st : QueryState) (eid : String) : Option Entity :=
  st.entities.find? (fun e => e.id == eid)

/-- The concatenated searchable text of a requirement entity
(`ssot-query.py:104-108`): `' '.join([title, description,
' '.join(acceptance_criteria)]).lower()`. -/
def searchableText (e : Entity) : String :=
  strToLower (e.title.getD "" ++ " " ++ e.description.getD "" ++ " " ++
    String.intercalate " " e.acceptance_criteria)

/-- `SSOTQuery._calculate_relevance` (`ssot-query.py:516-520`):
occurrence count divided by word count (floored at 1).  Python float
division is modelled exactly in `ℚ`. -/
def calculate_relevance (keyword text : String) : ℚ :=
  (countOcc (strToLower keyword).toList (strToLower text).toList : ℚ) /
    (max (wordCount text) 1 : ℚ)

/-- `SSOTQuery._find_keyword_matches` (`ssot-query.py:522-537`). -/
def find_keyword_matches (keyword : String) (e : Entity) : List String :=
  (if strContainsSub (strToLower (e.title.getD "")) (strToLower keyword) then
    ["title: " ++ e.title.getD ""] else []) ++
  (if strContainsSub (strToLower (e.description.getD "")) (strToLower keyword) then
    ["description: " ++ e.description.getD ""] else [])

structure KeywordHit where
  entity : Entity
  relevance : ℚ
  matchList : List String
deriving DecidableEq, Repr

/-- `SSOTQuery.find_requirements_by_keyword` (`ssot-query.py:97-119`):
collect matching Requirement entities in store order, then
`results.sort(key=relevance, reverse=True)` — a stable descending sort
with the comparator `b.relevance ≤ a.relevance`. -/
def find_requirements_by_keyword (st : QueryState) (keyword : String) :
    List KeywordHit :=
  let hits := st.entities.filterMap (fun e =>
    if e.type == "functional_requirement" || e.type == "non_functional_requirement" then
      if strContainsSub (searchableText e) (strToLower keyword) then
        some ⟨e, calculate_relevance keyword (searchableText e),
              find_keyword_matches keyword e⟩
      else none
    else none)
  sortStable (fun a b => decide (b.relevance ≤ a.relevance)) hits

/-- The de-duplication pass of `_process_keyword_query`
(`ssot-query.py:428-434`): keep the first hit for each entity id. -/
def dedupById (seen : List String) : List KeywordHit → List KeywordHit
  | [] => []
  | r :: rest =>
      if seen.contains r.entity.id then dedupById seen rest
      else r :: dedupById (r.entity.id :: seen) rest

/-- `SSOTQuery._process_keyword_query` (`ssot-query.py:418-436`): tokenize on
whitespace, search per token, concatenate the per-token (individually
sorted) result lists, and de-duplicate by entity id keeping first
occurrences.  The merged list is not re-sorted. -/
def process_keyword_query (st : QueryState) (query_text : String) :
    List KeywordHit :=
  dedupById [] (((splitWS query_text).map (find_requirements_by_keyword st)).flatten)

/-- `SSOTQuery._detect_query_type` (`ssot-query.py:401-416`): substring rules
over the lowercased query text, first match wins. -/
def detect_query_type (query_text : String) : String :=
  let ql := strToLower query_text
  if ["impact", "affect", "change"].any (fun w => strContainsSub ql w) then "impact"
  else if ["implement", "cover", "relate"].any (fun w => strContainsSub ql w) then "relationship"
  else if ["pattern", "frequent", "common"].any (fun w => strContainsSub ql w) then "pattern"
  else if ["gap", "missing", "without"].any (fun w => strContainsSub ql w) then "gap"
  else if ["coverage", "complete"].any (fun w => strContainsSub ql w) then "coverage"
  else "keyword"

/-! Model of `re.findall(pattern, text, re.IGNORECASE)` for the four
entity-id patterns `FR-\d+`, `NFR-\d+`, `UoW-\d+`, `CTR-\d+`
(`ssot-query.py:441-446`, `483-488`): scan left to right, at each position
try to match the literal (caselessly) followed by `-` and one or more
digits (greedy); on a match record the matched text as it appears and
resume after it. -/

/-- Caseless literal match at the head of the input; returns the consumed
input characters (original case) and the rest. -/
def matchCaseless : List Char → List Char → Option (List Char × List Char)
  | [], cs => some ([], cs)
  | _ :: _, [] => none
  | p :: ps, c :: cs =>
      if p.toLower == c.toLower then
        match matchCaseless ps cs with
        | some (m, rest) => some (c :: m, rest)
        | none => none
      else none

/-- Greedily take leading digits. -/
def takeDigits : List Char → List Char × List Char
  | [] => ([], [])
  | c :: cs =>
      if c.isDigit then
        let (d, r) := takeDigits cs
        (c :: d, r)
      else ([], c :: cs)

/-- Try to match `lit` + `-` + `\d+` at the head of `cs`. -/
def matchIdPat (lit : List Char) (cs : List Char) : Option (List Char × List Char) :=
  match matchCaseless (lit ++ ['-']) cs with
  | some (m, rest) =>
      let (ds, rest2) := takeDigits rest
      if ds.isEmpty then none else some (m ++ ds, rest2)
  | none => none

/-- Non-overlapping left-to-right scan.  The fuel is the input length: every
step consumes at least one character (a successful match consumes the
nonempty literal plus `-` plus at least one digit), so `cs.length` steps
always suffice and the fuel-exhaustion branch is unreachable. -/
def findAllPatAux (lit : List Char) : Nat → List Char → List String
  | 0, _ => []
  | _ + 1, [] => []
  | fuel + 1, c :: cs =>
      match matchIdPat lit (c :: cs) with
      | some (m, rest) => String.mk m :: findAllPatAux lit fuel rest
      | none => findAllPatAux lit fuel cs

def findAllPat (lit : String) (text : String) : List String :=
  findAllPatAux lit.toList text.toList.length text.toList

/-- The id extraction of `_process_relationship_query` /
`_process_impact_query`: `re.findall` for each of the four patterns, in
pattern order. -/
def findEntityIds (text : String) : List String :=
  findAllPat "FR" text ++ findAllPat "NFR" text ++ findAllPat "UoW" text ++
    findAllPat "CTR" text

/-- The `relationship` field of a `find_implementing_uows` entry: either an
actual index relationship or the literal `{"type": "indirect"}` marker. -/
inductive UowHitRel where
  | rel (r : Relationship)
  | indirectMarker
deriving DecidableEq, Repr

structure UowHit where
  uow : Entity
  relationship : UowHitRel
  direct : Bool
deriving DecidableEq, Repr

/-- `SSOTQuery._find_dependent_uows` (`ssot-query.py:539-551`). -/
def find_dependent_uows (st : QueryState) (uow_id : String) : List Entity :=
  st.relationships.filterMap (fun r =>
    if r.type == "depends_on" && r.target == uow_id then
      get_entity_by_id st r.source
    else none)

/-- The second loop of `find_implementing_uows` (`ssot-query.py:139-146`)
iterates over `implementing_uows` while appending to it, so entries added
during the loop are themselves processed.  Modelled as a queue; the fuel
bounds the number of processed entries.  (On a cyclic `depends_on` graph
the Python loop never terminates; the fuel-exhaustion branch models having
processed that many entries.) -/
def fiuLoop (st : QueryState) : Nat → List UowHit → List UowHit → List UowHit
  | 0, _, done => done
  | _ + 1, [], done => done
  | fuel + 1, h :: pending, done =>
      let newHits := (find_dependent_uows st h.uow.id).map
        (fun iu => { uow := iu, relationship := UowHitRel.indirectMarker, direct := false })
      fiuLoop st fuel (pending ++ newHits) (done ++ [h])

/-- `SSOTQuery.find_implementing_uows` (`ssot-query.py:121-148`). -/
def find_implementing_uows (st : QueryState) (requirement_id : String) :
    List UowHit :=
  let direct := st.relationships.filterMap (fun r =>
    if r.type == "implements" && r.target == requirement_id then
      (get_entity_by_id st r.source).map
        (fun uow => { uow := uow, relationship := UowHitRel.rel r, direct := true })
    else none)
  fiuLoop st (direct.length + st.relationships.length * (st.entities.length + 1) + 1)
    direct []

/-- `SSOTQuery.find_related_contracts` (`ssot-query.py:150-164`). -/
def find_related_contracts (st : QueryState) (entity_id : String) : List Entity :=
  st.entities.filter (fun e =>
    e.type == "contract" && e.applies_to_entity_name == some entity_id)

/-- `SSOTQuery.analyze_coverage_gaps` (`ssot-query.py:183-241`). -/
structure CoverageGaps where
  requirements_without_uows : List String
  uows_without_contracts : List String
  uows_without_bdd : List String
  orphaned_contracts : List String
deriving DecidableEq, Repr

def analyze_coverage_gaps (st : QueryState) : CoverageGaps :=
  let requirement_ids := (st.entities.filter (fun e =>
    e.type == "functional_requirement" || e.type == "non_functional_requirement")).map (·.id)
  let implemented_reqs := (st.relationships.filter (fun r => r.type == "implements")).map (·.target)
  let uow_ids := (st.entities.filter (fun e => e.type == "unit_of_work")).map (·.id)
  let contracted_uows : List (Option String) :=
    (st.entities.filter (fun e =>
      e.type == "contract" && e.applies_to_entity_type == some "uow")).map
      (·.applies_to_entity_name)
  let valid_entity_ids := st.entities.map (·.id)
  { requirements_without_uows :=
      requirement_ids.filter (fun i => !(implemented_reqs.contains i)),
    uows_without_contracts :=
      uow_ids.filter (fun u => !(contracted_uows.contains (some u))),
    uows_without_bdd := uow_ids.filter (fun u => !(st.bddUowIds.contains u)),
    orphaned_contracts := (st.entities.filter (fun e =>
      e.type == "contract" &&
      (match e.applies_to_entity_name with
       | some t => t ≠ "" && !(valid_entity_ids.contains t)
       | none => false))).map (·.id) }

/-- `SSOTQuery._determine_impact_type` (`ssot-query.py:579-590`). -/
def q_determine_impact_type (r : Relationship) : String :=
  if r.type == "implements" then "implementation_change"
  else if r.type == "depends_on" then "dependency_impact"
  else if r.type == "validates" then "contract_validation"
  else "general_impact"

structure QDirectImpact where
  entity : Entity
  relationship : Relationship
  impact_type : String
deriving DecidableEq, Repr

structure QIndirectImpact where
  entity : Entity
  relationship : Relationship
  via : String
  impact_type : String
deriving DecidableEq, Repr

/-- `SSOTQuery._calculate_risk_level` (`ssot-query.py:592-608`): impact count
scaled by 1.5 for critical entity types, bucketed at 10 and 5.  Python
float arithmetic on these small values is exact, modelled in `ℚ`. -/
def calculate_risk_level (direct_count indirect_count : Nat) (entity_type : String) : String :=
  let mult : ℚ := if entity_type == "functional_requirement" || entity_type == "contract"
    then 3 / 2 else 1
  let adjusted : ℚ := (direct_count + indirect_count : ℚ) * mult
  if adjusted ≥ 10 then "high"
  else if adjusted ≥ 5 then "medium"
  else "low"

/-- `SSOTQuery._generate_impact_recommendations` (`ssot-query.py:610-623`). -/
def q_generate_impact_recommendations (e : Entity) (direct_count indirect_count : Nat) :
    List String :=
  (if direct_count > 5 then ["Consider breaking down this entity due to high coupling"] else [])
  ++ (if indirect_count > 10 then ["Review architecture to reduce indirect dependencies"] else [])
  ++ (if e.type == "functional_requirement" && direct_count == 0 then
      ["This requirement has no implementing UoWs - consider adding implementation"] else [])

/-- Result of `SSOTQuery.analyze_impact` (`ssot-query.py:243-317`). -/
structure QImpactAnalysis where
  entity_id : String
  change_type : String
  direct_impacts : List QDirectImpact
  indirect_impacts : List QIndirectImpact
  risk_level : String
  recommendations : List String
  error : Option String
deriving DecidableEq, Repr

/-- Inner loop of the indirect-impact phase (`ssot-query.py:280-300`): for
each direct impact, second-level relationships are those touching it that
are not among the direct relationships; the far endpoint is added unless it
is the analyzed entity itself (no de-duplication here). -/
def q_indirect_for (st : QueryState) (entity_id : String)
    (direct_relationships : List Relationship) (di : QDirectImpact) :
    List QIndirectImpact :=
  let indirect_rels := st.relationships.filter (fun r =>
    (r.source == di.entity.id || r.target == di.entity.id) &&
    !(direct_relationships.contains r))
  indirect_rels.filterMap (fun r =>
    let rid := if r.source == di.entity.id then r.target else r.source
    match get_entity_by_id st rid with
    | some re =>
        if re.id ≠ entity_id then
          some { entity := re, relationship := r, via := di.entity.id,
                 impact_type := "indirect" }
        else none
    | none => none)

/-- `SSOTQuery.analyze_impact` (`ssot-query.py:243-317`).  The wall-clock
`analysis_timestamp` field is omitted (never read by any consumer). -/
def q_analyze_impact (st : QueryState) (entity_id : String) (change_type : String) :
    QImpactAnalysis :=
  match get_entity_by_id st entity_id with
  | none =>
      { entity_id := entity_id, change_type := change_type, direct_impacts := [],
        indirect_impacts := [], risk_level := "low", recommendations := [],
        error := some ("Entity " ++ entity_id ++ " not found") }
  | some e =>
      let direct_relationships := st.relationships.filter (fun r =>
        r.source == entity_id || r.target == entity_id)
      let direct_impacts := direct_relationships.filterMap (fun r =>
        let rid := if r.source == entity_id then r.target else r.source
        (get_entity_by_id st rid).map (fun re =>
          { entity := re, relationship := r,
            impact_type := q_determine_impact_type r }))
      let indirect_impacts :=
        (direct_impacts.map (q_indirect_for st entity_id direct_relationships)).flatten
      { entity_id := entity_id, change_type := change_type,
        direct_impacts := direct_impacts, indirect_impacts := indirect_impacts,
        risk_level := calculate_risk_level direct_impacts.length
          indirect_impacts.length e.type,
        recommendations := q_generate_impact_recommendations e
          direct_impacts.length indirect_impacts.length,
        error := none }

/-- A pattern search hit (`SSOTQuery.search_patterns`, `ssot-query.py:319-334`). -/
structure PatternHit where
  id : String
  pattern : PatternData
  relevance : Nat
deriving DecidableEq, Repr

def search_patterns (st : QueryState) (pattern_type : Option String) : List PatternHit :=
  let ps := (st.patterns.filter (fun p =>
    match pattern_type with
    | none => true
    | some t => p.2.category == some t)).map
    (fun p => { id := p.1, pattern := p.2, relevance := p.2.frequency : PatternHit })
  sortStable (fun a b => decide (b.relevance ≤ a.relevance)) ps

/-- `SSOTQuery._process_pattern_query` (`ssot-query.py:461-478`): keyword →
category table scanned in order, first hit wins. -/
def process_pattern_query (st : QueryState) (query_text : String) : List PatternHit :=
  let ql := strToLower query_text
  let pattern_type :=
    if strContainsSub ql "error" then some "error_handling"
    else if strContainsSub ql "validation" then some "data_validation"
    else if strContainsSub ql "config" then some "configuration"
    else if strContainsSub ql "test" then some "testing"
    else if strContainsSub ql "performance" then some "performance"
    else none
  search_patterns st pattern_type

/-- One element of a `QueryResult.results` list; the shape depends on the
query type (`ssot-query.py` builds plain dicts). -/
inductive QResult where
  | keywordHit (h : KeywordHit)
  | uowHit (h : UowHit)
  | contractHit (contract : Entity)
  | patternHit (h : PatternHit)
  | impactRes (entity_id : String) (ia : QImpactAnalysis)
  | coverageRes (g : CoverageGaps)
deriving DecidableEq, Repr

/-- `SSOTQuery._process_relationship_query` (`ssot-query.py:438-459`). -/
def process_relationship_query (st : QueryState) (query_text : String) : List QResult :=
  ((findEntityIds query_text).map (fun eid =>
    (if eid.startsWith "FR-" || eid.startsWith "NFR-" then
      (find_implementing_uows st eid).map QResult.uowHit
    else []) ++ (find_related_contracts st eid).map QResult.contractHit)).flatten

/-- `SSOTQuery._process_impact_query` (`ssot-query.py:480-498`); the default
change type of `analyze_impact` is `"modification"`. -/
def process_impact_query (st : QueryState) (query_text : String) : List QResult :=
  (findEntityIds query_text).map (fun eid =>
    QResult.impactRes eid (q_analyze_impact st eid "modification"))

/-- `SSOTQuery._process_coverage_query` (`ssot-query.py:500-503`): a single
entry wrapping the whole coverage analysis; `_process_gap_query` delegates
to it. -/
def process_coverage_query (st : QueryState) : List QResult :=
  [QResult.coverageRes (analyze_coverage_gaps st)]

/-- `SSOTQuery.query` result (`ssot-query.py:74-95`): `metadata.error` is set
only by the `except` branch; the wall-clock timestamp and `execution_time`
are omitted (never read by any consumer; no processor below can raise, so
the `except` branch is unreachable and `error` is always `none`). -/
structure QueryResult where
  query : String
  results : List QResult
  query_type : String
  results_count : Nat
  error : Option String
deriving DecidableEq, Repr

/-- `SSOTQuery.query` (`ssot-query.py:57-95`): resolve `auto` via
`_detect_query_type`, dispatch on the processor table
(`ssot-query.py:48-55`, unknown types fall back to the keyword
processor). -/
def query (st : QueryState) (query_text : String) (query_type : String) : QueryResult :=
  let qt := if query_type == "auto" then detect_query_type query_text else query_type
  let results : List QResult :=
    if qt == "keyword" then (process_keyword_query st query_text).map QResult.keywordHit
    else if qt == "relationship" then process_relationship_query st query_text
    else if qt == "pattern" then (process_pattern_query st query_text).map QResult.patternHit
    else if qt == "impact" then process_impact_query st query_text
    else if qt == "coverage" then process_coverage_query st
    else if qt == "gap" then process_coverage_query st
    else (process_keyword_query st query_text).map QResult.keywordHit
  { query := query_text, results := results, query_type := qt,
    results_count := results.length, error := none }

/-! ## Impact Analyzer (`impact-analyzer.py`) -/

/-- The state of an `ImpactAnalyzer` instance. -/
structure Graph where
  entities : List Entity
  relationships : List Relationship

/-- `self.entity_index = {e['id']: e for e in self.entities}`
(`impact-analyzer.py:53`): for duplicate ids the later entity wins, so a
lookup returns the last matching entity. -/
def entityIndex (g : Graph) (eid : String) : Option Entity :=
  g.entities.reverse.find? (fun e => e.id == eid)

/-- `ImpactItem` (`impact-analyzer.py:17-26`). -/
structure ImpactItem where
  entity_id : String
  entity_type : String
  impact_type : String
  severity : String
  description : String
  path : List String
  recommendations : List String
deriving DecidableEq, Repr

/-- `ImpactAnalyzer._determine_impact_type` (`impact-analyzer.py:557-570`). -/
def determine_impact_type (r : Relationship) : String :=
  if r.type == "implements" then "implementation_change"
  else if r.type == "depends_on" then "dependency_impact"
  else if r.type == "validates" then "contract_validation"
  else if r.type == "extends" then "extension_impact"
  else "general_impact"

/-- `ImpactAnalyzer._calculate_impact_severity` (`impact-analyzer.py:572-604`):
`base_severity` starts at 1 and is incremented by the relationship-type,
entity-type and change-type factors, then bucketed at ≥6 / ≥4 / ≥2. -/
def calculate_impact_severity (r : Relationship) (affected : Entity)
    (change_type : String) : String :=
  let base0 : Nat := 1
  let base1 := if r.type == "implements" || r.type == "validates" then base0 + 2
    else if r.type == "depends_on" then base0 + 1 else base0
  let base2 := if affected.type == "functional_requirement" || affected.type == "contract"
    then base1 + 2
    else if affected.type == "unit_of_work" then base1 + 1 else base1
  let base3 := if change_type == "removal" then base2 + 2
    else if change_type == "major_modification" then base2 + 1 else base2
  if base3 ≥ 6 then "critical"
  else if base3 ≥ 4 then "high"
  else if base3 ≥ 2 then "medium"
  else "low"

/-- `self.severity_levels` lookup with default 1
(`impact-analyzer.py:56-61`, `608`). -/
def severityLevel (s : String) : Nat :=
  if s == "critical" then 4
  else if s == "high" then 3
  else if s == "medium" then 2
  else if s == "low" then 1
  else 1

/-- `ImpactAnalyzer._calculate_indirect_severity` (`impact-analyzer.py:606-618`):
one level below the parent direct impact, floored at `low`; the reverse
lookup scans the dict in insertion order (critical, high, medium, low). -/
def calculate_indirect_severity (direct_severity : String) : String :=
  let indirect_level := max 1 (severityLevel direct_severity - 1)
  if indirect_level == 4 then "critical"
  else if indirect_level == 3 then "high"
  else if indirect_level == 2 then "medium"
  else if indirect_level == 1 then "low"
  else "low"

/-- `ImpactAnalyzer._calculate_cascade_severity` (`impact-analyzer.py:620-627`). -/
def calculate_cascade_severity (path_length : Nat) : String :=
  if path_length ≤ 3 then "medium"
  else if path_length ≤ 4 then "low"
  else "low"

/-- `entity.get('title', entity.get('name', entity.get('id', 'Unknown')))`
(`impact-analyzer.py:633`). -/
def entityDisplayName (e : Entity) : String :=
  e.title.getD (e.name.getD e.id)

/-- `ImpactAnalyzer._generate_impact_description` (`impact-analyzer.py:629-642`). -/
def generate_impact_description (r : Relationship) (affected : Entity) : String :=
  if r.type == "implements" then
    "Implementation relationship will be affected: " ++ entityDisplayName affected
  else if r.type == "depends_on" then
    "Dependency relationship will be affected: " ++ entityDisplayName affected
  else if r.type == "validates" then
    "Contract validation will be affected: " ++ entityDisplayName affected
  else
    "Related " ++ affected.type ++ " will be affected: " ++ entityDisplayName affected

/-- `ImpactAnalyzer._generate_impact_recommendations` (`impact-analyzer.py:644-665`). -/
def generate_impact_recommendations (r : Relationship) : List String :=
  if r.type == "implements" then
    ["Update implementation to match changes", "Verify acceptance criteria still satisfied"]
  else if r.type == "depends_on" then
    ["Check dependency compatibility", "Update dependent entity if needed"]
  else if r.type == "validates" then
    ["Re-validate contract conditions", "Update contract if necessary"]
  else []

/-- All relationships touching an entity
(`impact-analyzer.py:295-298` and `380-383`). -/
def touchingRels (g : Graph) (eid : String) : List Relationship :=
  g.relationships.filter (fun r => r.source == eid || r.target == eid)

/-- `ImpactAnalyzer._analyze_direct_impacts` (`impact-analyzer.py:290-321`). -/
def analyze_direct_impacts (g : Graph) (entity_id : String) (change_type : String) :
    List ImpactItem :=
  (touchingRels g entity_id).filterMap (fun r =>
    let affected_id := if r.source == entity_id then r.target else r.source
    (entityIndex g affected_id).map (fun ae =>
      { entity_id := affected_id,
        entity_type := ae.type,
        impact_type := determine_impact_type r,
        severity := calculate_impact_severity r ae change_type,
        description := generate_impact_description r ae,
        path := [entity_id, affected_id],
        recommendations := generate_impact_recommendations r }))

/-- Second-level relationships of a direct impact
(`impact-analyzer.py:329-334`): touching the direct impact but not the
analyzed entity itself. -/
def secondLevelRels (g : Graph) (entity_id di_id : String) : List Relationship :=
  g.relationships.filter (fun r =>
    (r.source == di_id || r.target == di_id) &&
    !(r.source == entity_id) && !(r.target == entity_id))

/-- Inner loop of `_analyze_indirect_impacts` (`impact-analyzer.py:336-360`):
the accumulator is shared across all direct impacts, and a candidate is
skipped when an indirect impact for the same entity id was already
collected. -/
def indirectRelLoop (g : Graph) (entity_id : String) (di : ImpactItem) :
    List Relationship → List ImpactItem → List ImpactItem
  | [], acc => acc
  | r :: rest, acc =>
      let affected_id := if r.source == di.entity_id then r.target else r.source
      if affected_id ≠ entity_id && !(acc.any (fun i => i.entity_id == affected_id)) then
        match entityIndex g affected_id with
        | some ae =>
            indirectRelLoop g entity_id di rest (acc ++
              [{ entity_id := affected_id,
                 entity_type := ae.type,
                 impact_type := "indirect_" ++ determine_impact_type r,
                 severity := calculate_indirect_severity di.severity,
                 description := "Indirectly affected via " ++ di.entity_id,
                 path := [entity_id, di.entity_id, affected_id],
                 recommendations := ["Review for potential side effects"] }])
        | none => indirectRelLoop g entity_id di rest acc
      else indirectRelLoop g entity_id di rest acc

def indirectLoop (g : Graph) (entity_id : String) :
    List ImpactItem → List ImpactItem → List ImpactItem
  | [], acc => acc
  | di :: rest, acc =>
      indirectLoop g entity_id rest
        (indirectRelLoop g entity_id di (secondLevelRels g entity_id di.entity_id) acc)

/-- `ImpactAnalyzer._analyze_indirect_impacts` (`impact-analyzer.py:323-362`). -/
def analyze_indirect_impacts (g : Graph) (entity_id : String)
    (direct_impacts : List ImpactItem) : List ImpactItem :=
  indirectLoop g entity_id direct_impacts []

/-- Expansion of one dequeued node in `_analyze_cascade_impacts`
(`impact-analyzer.py:385-408`): walk its relationships in order; each fresh
far endpoint is marked visited, and when it resolves to an entity a cascade
item is appended and the node is queued. -/
def cascadeStep (g : Graph) (cur : String) (path : List String) :
    List Relationship → List String → List ImpactItem → List (String × List String) →
    List String × List ImpactItem × List (String × List String)
  | [], visited, cascade, pushes => (visited, cascade, pushes)
  | r :: rest, visited, cascade, pushes =>
      let nid := if r.source == cur then r.target else r.source
      if !(visited.contains nid) then
        match entityIndex g nid with
        | some ne =>
            cascadeStep g cur path rest (nid :: visited)
              (cascade ++ [{ entity_id := nid,
                             entity_type := ne.type,
                             impact_type := "cascade",
                             severity := calculate_cascade_severity path.length,
                             description := "Cascade impact via " ++
                               String.intercalate " → " (path.drop 1),
                             path := path ++ [nid],
                             recommendations := ["Monitor for unexpected effects"] }])
              (pushes ++ [(nid, path ++ [nid])])
        | none => cascadeStep g cur path rest (nid :: visited) cascade pushes
      else cascadeStep g cur path rest visited cascade pushes

/-- The BFS of `_analyze_cascade_impacts` (`impact-analyzer.py:373-408`):
`while queue and len(cascade_impacts) < 20`, with nodes whose path already
has length ≥ 5 skipped.  Each iteration dequeues one element and every
enqueued element carries a freshly visited id, so the fuel passed by
`analyze_cascade_impacts` strictly exceeds the number of possible
iterations and the fuel-exhaustion branch is unreachable. -/
def cascadeLoop (g : Graph) : Nat → List (String × List String) → List String →
    List ImpactItem → List ImpactItem
  | 0, _, _, cascade => cascade
  | _ + 1, [], _, cascade => cascade
  | fuel + 1, (cur, path) :: rest, visited, cascade =>
      if cascade.length < 20 then
        if path.length ≥ 5 then cascadeLoop g fuel rest visited cascade
        else
          let t := cascadeStep g cur path (touchingRels g cur) visited cascade []
          cascadeLoop g fuel (rest ++ t.2.2) t.1 t.2.1
      else cascade

/-- `ImpactAnalyzer._analyze_cascade_impacts` (`impact-analyzer.py:364-410`):
visited starts as the analyzed entity plus every already-impacted entity;
the queue starts with every existing impact and its path. -/
def analyze_cascade_impacts (g : Graph) (entity_id : String)
    (existing_impacts : List ImpactItem) : List ImpactItem :=
  cascadeLoop g
    (existing_impacts.length + 2 * g.relationships.length + 1)
    (existing_impacts.map (fun i => (i.entity_id, i.path)))
    (entity_id :: existing_impacts.map (·.entity_id))
    []

/-- Insert-if-absent, modelling `set.add` where only membership and
cardinality of the resulting set are ever consumed. -/
def insertNew (l : List String) (x : String) : List String :=
  if l.contains x then l else l ++ [x]

/-- `ImpactAnalyzer._analyze_affected_layers` (`impact-analyzer.py:502-515`):
the set of `layer` attributes (≠ 'unknown') of all impacted entities. -/
def affected_layers_of (g : Graph) (impacts : List ImpactItem) : List String :=
  impacts.foldl (fun acc i =>
    match entityIndex g i.entity_id with
    | some e =>
        let layer := e.layer.getD "unknown"
        if layer ≠ "unknown" then insertNew acc layer else acc
    | none => acc) []

structure RiskAssessment where
  overall_risk : String
  risk_score : Nat
  risk_factors : List String
  mitigation_required : Bool
deriving DecidableEq, Repr

/-- `risk_assessment` of a report: either the dict built by
`_perform_risk_assessment`, or the `{"error": msg}` dict assigned by the
`except` branch of `analyze_change_impact` (`impact-analyzer.py:137-140`). -/
inductive RiskInfo where
  | err (msg : String)
  | ok (ra : RiskAssessment)
deriving DecidableEq, Repr

/-- `ImpactAnalyzer._perform_risk_assessment` (`impact-analyzer.py:412-460`). -/
def perform_risk_assessment (g : Graph) (source_entity : Entity)
    (direct indirect cascade : List ImpactItem) : RiskAssessment :=
  let f1 := source_entity.type == "functional_requirement" || source_entity.type == "contract"
  let total_impacts := direct.length + indirect.length + cascade.length
  let critical_impacts := ((direct ++ indirect).filter (fun i => i.severity == "critical")).length
  let layers := affected_layers_of g (direct ++ indirect ++ cascade)
  let score := (if f1 then 3 else 0)
    + (if total_impacts > 10 then 2 else if total_impacts > 5 then 1 else 0)
    + critical_impacts
    + (if layers.length > 2 then 1 else 0)
  let factors := (if f1 then ["Critical entity type"] else [])
    ++ (if total_impacts > 10 then ["High impact count"]
        else if total_impacts > 5 then ["Medium impact count"] else [])
    ++ (if critical_impacts > 0 then ["Critical severity impacts"] else [])
    ++ (if layers.length > 2 then ["Multiple layer impact"] else [])
  let overall := if score ≥ 8 then "critical"
    else if score ≥ 5 then "high"
    else if score ≥ 3 then "medium"
    else "low"
  { overall_risk := overall, risk_score := score, risk_factors := factors,
    mitigation_required := overall == "critical" || overall == "high" }

/-- `ImpactAnalyzer._generate_mitigation_strategies` (`impact-analyzer.py:462-500`).
Note: it is called in phase 5, before phase 6 assigns
`report.affected_layers`, so it always sees the initial empty set and the
layer-coordination strategy can never fire; the caller passes that
still-empty value explicitly here. -/
def generate_mitigation_strategies (risk_level : String)
    (direct indirect : List ImpactItem) (affected_layers : List String) : List String :=
  let impact_types := (direct ++ indirect).map (·.impact_type)
  (if risk_level == "critical" then
    ["Implement phased rollout with rollback plan",
     "Create comprehensive test suite covering all impacts",
     "Set up monitoring for all affected entities",
     "Prepare hotfix deployment process"]
  else if risk_level == "high" then
    ["Perform staged deployment",
     "Enhanced testing of affected components",
     "Monitor key metrics during rollout"]
  else [])
  ++ (if impact_types.contains "implementation_change" then
      ["Update related contracts and BDD scenarios"] else [])
  ++ (if impact_types.contains "dependency_impact" then
      ["Verify dependency compatibility"] else [])
  ++ (if impact_types.contains "contract_validation" then
      ["Re-validate all affected contracts"] else [])
  ++ (if affected_layers.length > 1 then
      ["Coordinate changes across affected layers"] else [])

/-- `ImpactAnalyzer._generate_testing_recommendations` (`impact-analyzer.py:517-555`). -/
def generate_testing_recommendations (direct indirect : List ImpactItem)
    (affected_layers : List String) : List String :=
  ["Unit tests for modified entity", "Integration tests for direct impacts"]
  ++ (if direct.length + indirect.length > 5 then
      ["Regression test suite execution", "End-to-end testing of affected workflows"] else [])
  ++ (if affected_layers.contains "foundation" then
      ["Infrastructure and configuration testing"] else [])
  ++ (if affected_layers.contains "application" then
      ["Business logic validation testing"] else [])
  ++ (if affected_layers.contains "deployment" then
      ["Deployment and operational testing"] else [])
  ++ (if ((direct ++ indirect).filter (fun i => i.impact_type == "contract_validation")).length > 0
      then ["Contract compliance verification"] else [])

/-- `ImpactReport` (`impact-analyzer.py:28-39`); the wall-clock
`analysis_timestamp` is omitted (never read by any consumer). -/
structure ImpactReport where
  source_entity : String
  change_type : String
  direct_impacts : List ImpactItem
  indirect_impacts : List ImpactItem
  cascade_impacts : List ImpactItem
  risk_assessment : RiskInfo
  mitigation_strategies : List String
  affected_layers : List String
  testing_recommendations : List String
deriving DecidableEq, Repr

/-- `ImpactAnalyzer.analyze_change_impact` (`impact-analyzer.py:71-140`).
When the entity is missing, the raised `ValueError` is caught by the
`except` branch, which stores `{"error": ...}` in `risk_assessment` and
returns the otherwise-empty report. -/
def analyze_change_impact (g : Graph) (entity_id : String) (change_type : String) :
    ImpactReport :=
  match entityIndex g entity_id with
  | none =>
      { source_entity := entity_id, change_type := change_type,
        direct_impacts := [], indirect_impacts := [], cascade_impacts := [],
        risk_assessment := RiskInfo.err ("Entity " ++ entity_id ++ " not found"),
        mitigation_strategies := [], affected_layers := [],
        testing_recommendations := [] }
  | some source_entity =>
      let direct := analyze_direct_impacts g entity_id change_type
      let indirect := analyze_indirect_impacts g entity_id direct
      let cascade := analyze_cascade_impacts g entity_id (direct ++ indirect)
      let ra := perform_risk_assessment g source_entity direct indirect cascade
      let layers := affected_layers_of g (direct ++ indirect ++ cascade)
      { source_entity := entity_id, change_type := change_type,
        direct_impacts := direct, indirect_impacts := indirect,
        cascade_impacts := cascade, risk_assessment := RiskInfo.ok ra,
        mitigation_strategies := generate_mitigation_strategies ra.overall_risk
          direct indirect [],
        affected_layers := layers,
        testing_recommendations := generate_testing_recommendations direct indirect
          layers }

/-- Neighbour collection of `_find_shortest_path` (`impact-analyzer.py:693-698`):
`elif` means a self-loop contributes only its target. -/
def bfsConnected (g : Graph) (cur : String) : List String :=
  g.relationships.filterMap (fun r =>
    if r.source == cur then some r.target
    else if r.target == cur then some r.source
    else none)

/-- Scan the neighbour list of a dequeued node (`impact-analyzer.py:700-706`):
Python returns from inside the loop the moment the target appears. -/
def bfsScan (target : String) (path : List String) :
    List String → List String → List (String × List String) →
    Option (List String) × List String × List (String × List String)
  | [], visited, pushes => (none, visited, pushes)
  | n :: ns, visited, pushes =>
      if n == target then (some (path ++ [target]), visited, pushes)
      else if !(visited.contains n) then
        bfsScan target path ns (n :: visited) (pushes ++ [(n, path ++ [n])])
      else bfsScan target path ns visited pushes

/-- The BFS loop of `_find_shortest_path` (`impact-analyzer.py:689-708`).
Each enqueued element carries a freshly visited id, so the fuel passed by
`find_shortest_path` strictly exceeds the number of possible iterations. -/
def bfsLoop (g : Graph) (target : String) : Nat → List (String × List String) →
    List String → Option (List String)
  | 0, _, _ => none
  | _ + 1, [], _ => none
  | fuel + 1, (cur, path) :: rest, visited =>
      match bfsScan target path (bfsConnected g cur) visited [] with
      | (some found, _, _) => some found
      | (none, visited', pushes) => bfsLoop g target fuel (rest ++ pushes) visited'

/-- `ImpactAnalyzer._find_shortest_path` (`impact-analyzer.py:681-708`). -/
def find_shortest_path (g : Graph) (source target : String) : Option (List String) :=
  if source == target then some [source]
  else bfsLoop g target (2 * g.relationships.length + 2) [(source, [source])] [source]

/-- `ImpactAnalyzer._calculate_entity_impact` (`impact-analyzer.py:667-679`). -/
def calculate_entity_impact (g : Graph) (source target : String) : String :=
  match find_shortest_path g source target with
  | none => "none"
  | some p =>
      if p.length == 2 then "high"
      else if p.length == 3 then "medium"
      else "low"

/-- `ImpactAnalyzer.generate_impact_matrix` (`impact-analyzer.py:142-157`),
as an association list in entity order (the diagonal is skipped). -/
def generate_impact_matrix (g : Graph) (entity_ids : List String) :
    List (String × List (String × String)) :=
  entity_ids.map (fun s =>
    (s, entity_ids.filterMap (fun t =>
      if s == t then none else some (t, calculate_entity_impact g s t))))

/-- `ImpactAnalyzer._calculate_criticality_score` (`impact-analyzer.py:710-731`),
exact float arithmetic on tenths modelled in `ℚ`. -/
def calculate_criticality_score (e : Entity) (incoming outgoing : Nat) : ℚ :=
  let base : ℚ := if e.type == "functional_requirement" then 4 / 10
    else if e.type == "contract" then 3 / 10
    else if e.type == "unit_of_work" then 2 / 10
    else 0
  let score := base + min (incoming * (1 / 10) : ℚ) (4 / 10)
    + min (outgoing * (5 / 100) : ℚ) (2 / 10)
  min score 1

/-- `ImpactAnalyzer._identify_risk_factors` (`impact-analyzer.py:733-747`). -/
def identify_risk_factors (e : Entity) (incoming outgoing : Nat) : List String :=
  (if incoming > 5 then ["High number of dependent entities"] else [])
  ++ (if outgoing > 3 then ["High complexity with multiple dependencies"] else [])
  ++ (if e.type == "functional_requirement" || e.type == "contract" then
      ["Critical entity type"] else [])

structure CriticalDep where
  entity : Entity
  criticality_score : ℚ
  incoming_dependencies : Nat
  outgoing_dependencies : Nat
  risk_factors : List String
deriving DecidableEq, Repr

/-- `ImpactAnalyzer.find_critical_dependencies` (`impact-analyzer.py:159-197`). -/
def find_critical_dependencies (g : Graph) : List CriticalDep :=
  let deps := g.entities.filterMap (fun e =>
    let incoming := (g.relationships.filter (fun r =>
      r.target == e.id && (r.type == "depends_on" || r.type == "implements"))).length
    let outgoing := (g.relationships.filter (fun r =>
      r.source == e.id && r.type == "depends_on")).length
    let score := calculate_criticality_score e incoming outgoing
    if score ≥ 7 / 10 then
      some { entity := e, criticality_score := score,
             incoming_dependencies := incoming, outgoing_dependencies := outgoing,
             risk_factors := identify_risk_factors e incoming outgoing }
    else none)
  sortStable (fun a b => decide (b.criticality_score ≤ a.criticality_score)) deps

/-! ## Sync Engine (`sync-engine.py`) -/

/-- An entity as `SyncEngine._extract_ssot_entities` builds it
(`sync-engine.py:306-343`). -/
structure SyncEntity where
  id : String
  type : String
  content : Json
  hash : String

/-- Python dict insertion: overwrite in place if the key exists, else append
(insertion order preserved). -/
def dictInsert {α : Type} (m : List (String × α)) (k : String) (v : α) :
    List (String × α) :=
  if m.any (fun p => p.1 == k) then
    m.map (fun p => if p.1 == k then (k, v) else p)
  else m ++ [(k, v)]

/-- Python dict lookup. -/
def assocFind {α : Type} (m : List (String × α)) (k : String) : Option α :=
  (m.find? (fun p => p.1 == k)).map (·.2)

/-- `SyncEngine._extract_ssot_entities` (`sync-engine.py:306-343`): a dict
id ↦ entity filled from FRs, then NFRs, then UoWs. -/
def extract_ssot_entities (d : SSOTData) : List (String × SyncEntity) :=
  match d.framework_requirements with
  | none => []
  | some fr =>
      let m1 := fr.functional_requirements.foldl (fun m p =>
        dictInsert m p.1 ⟨p.1, "functional_requirement", p.2, generate_hash p.2⟩) []
      let m2 := fr.non_functional_requirements.foldl (fun m p =>
        dictInsert m p.1 ⟨p.1, "non_functional_requirement", p.2, generate_hash p.2⟩) m1
      fr.units_of_work.foldl (fun m p =>
        dictInsert m p.1 ⟨p.1, "unit_of_work", p.2, generate_hash p.2⟩) m2

/-- `SyncEngine._entities_differ` (`sync-engine.py:345-349`): compare the
freshly computed hash with `entity.get('metadata', {}).get('hash')`; a
missing or non-string stored hash differs from any string. -/
def entities_differ (se : SyncEntity) (ge : Json) : Bool :=
  match entityStoredHash ge with
  | some (.str h) => !(h == se.hash)
  | _ => true

/-- The GraphRAG state as far as `detect_changes` reads it: the loaded
`entities.json` contents, `none` when the file does not exist (so that
`'entities' in graphrag_state` is false). -/
structure GraphragState where
  entities : Option (List Json)

/-- Return value of `SyncEngine.detect_changes` (`sync-engine.py:124-128`). -/
structure Changes where
  ssot_updates : List String
  graphrag_updates : List String
  conflicts : List String
deriving DecidableEq, Repr

/-- `{entity['id']: entity for entity in graphrag_state['entities']}`
(`sync-engine.py:133`). -/
def gesDict (ges : List Json) : List (String × Json) :=
  ges.foldl (fun m e => dictInsert m e.idStr e) []

/-- Condition under which an SSOT-derivable entity is reported in
`ssot_updates` (`sync-engine.py:135-141`): its stored counterpart differs,
or it is absent from the index. -/
def ssotUpdateCond (grD : List (String × Json)) (p : String × SyncEntity) : Bool :=
  match assocFind grD p.1 with
  | some ge => entities_differ p.2 ge
  | none => true

/-- `graphrag_entity.get('type') in ['pattern', 'decision', 'lesson']`. -/
def isDerivedType (ge : Json) : Bool :=
  ge.typeStr == "pattern" || ge.typeStr == "decision" || ge.typeStr == "lesson"

/-- `SyncEngine.detect_changes` (`sync-engine.py:122-151`).  When the index
has no entity artifact (`'entities' not in graphrag_state`) no comparison
loop runs and all three lists stay empty. -/
def detect_changes (ssot : SSOTData) (gr : GraphragState) : Changes :=
  match gr.entities with
  | none => ⟨[], [], []⟩
  | some ges =>
      let ssotE := extract_ssot_entities ssot
      let grD := gesDict ges
      let su := ssotE.foldl (fun acc p =>
        if ssotUpdateCond grD p then acc ++ [p.1] else acc) []
      let gu_cf := grD.foldl (fun (acc : List String × List String) p =>
        if ssotE.any (fun q => q.1 == p.1) then acc
        else if isDerivedType p.2 then (acc.1 ++ [p.1], acc.2)
        else (acc.1, acc.2 ++ [p.1])) ([], [])
      ⟨su, gu_cf.1, gu_cf.2⟩

/-! ## Definitions following the specification's words

These re-state, in the claim's own terms, what the code is claimed to
compute; they are compared against the source-derived definitions above. -/

/-- The severity buckets exactly as the claim words them:
`s < 2` Low, `2 ≤ s ≤ 3` Medium, `4 ≤ s ≤ 5` High, `s ≥ 6` Critical. -/
def claimSeverityBucket (s : Nat) : String :=
  if s < 2 then "low"
  else if s ≤ 3 then "medium"
  else if s ≤ 5 then "high"
  else "critical"

/-- Relationship-type weight per the claim: Implements/Validates = +2,
DependsOn = +1, else 0. -/
def claimRelWeight (rel_type : String) : Nat :=
  if rel_type == "implements" || rel_type == "validates" then 2
  else if rel_type == "depends_on" then 1
  else 0

/-- Target-entity-type weight per the claim: Requirement/Contract = +2,
UnitOfWork = +1, else 0. -/
def claimEntityWeight (entity_type : String) : Nat :=
  if entity_type == "functional_requirement" || entity_type == "contract" then 2
  else if entity_type == "unit_of_work" then 1
  else 0

/-- Change-type weight per the claim: removal = +2, major_modification = +1,
else 0. -/
def claimChangeWeight (change_type : String) : Nat :=
  if change_type == "removal" then 2
  else if change_type == "major_modification" then 1
  else 0

/-- `authoritative_updates` as claim C9 words it: every entity derivable from
the authoritative documents whose freshly computed content hash mismatches
the stored index hash, or which is absent from the index. -/
def claimAuthoritativeUpdates (ssot : SSOTData) (ges : List Json) : List String :=
  ((extract_ssot_entities ssot).filter (ssotUpdateCond (gesDict ges))).map (·.1)

/-- `derived_updates` as claim C9 words it: index-only entities of a
derived-knowledge type. -/
def claimDerivedUpdates (ssot : SSOTData) (ges : List Json) : List String :=
  (((gesDict ges).filter (fun p =>
    !(extract_ssot_entities ssot).any (fun q => q.1 == p.1) && isDerivedType p.2))).map (·.1)

/-- `conflicts` as claim C9 words it: every other index-only entity. -/
def claimConflicts (ssot : SSOTData) (ges : List Json) : List String :=
  (((gesDict ges).filter (fun p =>
    !(extract_ssot_entities ssot).any (fun q => q.1 == p.1) && !(isDerivedType p.2)))).map (·.1)

/-! ## Concrete inputs used by counterexamples and witnesses -/

/-- A one-requirement corpus. -/
def exCorpus1 : SSOTData :=
  { framework_requirements := some
      { functional_requirements := [("FR-001", Json.obj [("title", Json.str "Login")])],
        non_functional_requirements := [],
        units_of_work := [] },
    extensions := [],
    contracts := [] }

/-- First entity's `metadata.last_updated` as a plain string (observer used
to separate two indexer runs). -/
def firstLastUpdated (l : List Json) : String :=
  match l with
  | e :: _ =>
      match (e.getD "metadata" (.obj [])).get? "last_updated" with
      | some (.str s) => s
      | _ => ""
  | [] => ""

/-- A corpus whose index has one entity and one relationship. -/
def exCorpus4 : SSOTData :=
  { framework_requirements := some
      { functional_requirements := [("FR-001", Json.obj [("title", Json.str "Login")])],
        non_functional_requirements := [],
        units_of_work :=
          [("UoW-001", Json.obj [("implements", Json.arr [Json.str "FR-001"])])] },
    extensions := [],
    contracts := [] }

/-- An empty prior index store. -/
def exOldStore4 : IndexStore :=
  { entitiesFile := [], relationshipsFile := [], metadataFile := Json.obj [] }

/-- The graph for the cascade-cap counterexample: `S – E1 – F1 – G0..G20`.
`S`'s only neighbour is `E1` (direct impact), `F1` is the only indirect
impact, and `F1` has 21 fresh neighbours, all appended as cascade items
during the single expansion of `F1`. -/
def exG2ents : List Entity :=
  [{ id := "S", type := "unit_of_work" },
   { id := "E1", type := "unit_of_work" },
   { id := "F1", type := "unit_of_work" }]
  ++ (List.range 21).map (fun i => { id := "G" ++ toString i, type := "unit_of_work" })

def exG2rels : List Relationship :=
  [{ source := "S", target := "E1", type := "implements" },
   { source := "E1", target := "F1", type := "depends_on" }]
  ++ (List.range 21).map (fun i =>
      { source := "F1", target := "G" ++ toString i, type := "depends_on" })

def exG2 : Graph := { entities := exG2ents, relationships := exG2rels }

/-- The graph for the severity-bucket counterexample: one `implements` edge
from a UoW to a functional requirement. -/
def exG3 : Graph :=
  { entities := [{ id := "S", type := "unit_of_work" },
                 { id := "T", type := "functional_requirement" }],
    relationships := [{ source := "S", target := "T", type := "implements" }] }

/-- A one-requirement query store. -/
def exQS5 : QueryState :=
  { entities := [{ id := "FR-001", type := "functional_requirement",
                   title := some "Login", description := some "User login",
                   acceptance_criteria := ["works"] }],
    relationships := [] }

/-- Entities for the keyword-merge counterexample: `FR-1` matches token
`alpha` with relevance 1/4 (one occurrence over four words), `FR-2` matches
token `beta` with relevance 1 (one occurrence over one word). -/
def exEntityA7 : Entity :=
  { id := "FR-1", type := "functional_requirement",
    title := some "alpha", description := some "x y z" }

def exEntityB7 : Entity :=
  { id := "FR-2", type := "functional_requirement",
    title := some "beta", description := some "" }

def exQS7 : QueryState :=
  { entities := [exEntityA7, exEntityB7], relationships := [] }

/-- Scenario A corpus: `UoW-001 {implements: [FR-001]}` and no `FR-001`. -/
def exCorpus8 : SSOTData :=
  { framework_requirements := some
      { functional_requirements := [],
        non_functional_requirements := [],
        units_of_work :=
          [("UoW-001", Json.obj [("implements", Json.arr [Json.str "FR-001"])])] },
    extensions := [],
    contracts := [] }

/-- One-requirement document state for the sync counterexample. -/
def exSSOT9 : SSOTData := exCorpus1

/-- An index state whose stored hash for `FR-001` is stale. -/
def exGRStale9 : GraphragState :=
  { entities := some
      [Json.obj [("id", Json.str "FR-001"),
                 ("type", Json.str "functional_requirement"),
                 ("metadata", Json.obj [("hash", Json.str "0000000000000000")])]] }

/-- The query store an engine builds when both index files are absent. -/
def exQS10 : QueryState :=
  { entities := load_entities none, relationships := load_relationships none }

/-- The analyzer graph built when both index files are absent. -/
def exG10 : Graph :=
  { entities := load_entities none, relationships := load_relationships none }

/-- The index artifacts produced from `exCorpus4` at a fixed time. -/
def exNewEs4 : List Json := extract_entities exCorpus4 "2024-06-01T12:00:00"

def exNewRels4 : List Json := extract_relationships exCorpus4 "2024-06-01T12:00:00"

/-- The fully written new store for `exCorpus4`. -/
def exNewStore4 : IndexStore :=
  { entitiesFile := exNewEs4, relationshipsFile := exNewRels4,
    metadataFile := mkIndexMetadata exNewEs4 exNewRels4 "2024-06-01T12:00:00" }

/-- The store a reader observes after the first of the three writes: new
entities with the old relationships and metadata. -/
def exMixedStore4 : IndexStore :=
  { entitiesFile := exNewEs4, relationshipsFile := [], metadataFile := Json.obj [] }

/-! ## Theorems -/

/-- C3 counterexample: on a graph with a single `implements` edge from a UoW
to a functional requirement, `AnalyzeChangeImpact(S, major_modification)`
produces a direct impact of severity `critical`, while the claim's bucket of
the weight sum (2 + 2 + 1 = 5) is `high`: the claim's buckets are off by the
base offset of 1 that the code starts from. -/
theorem C3_counterexample :
    (analyze_change_impact exG3 "S" "major_modification").direct_impacts.map
      (fun i => i.severity) = ["critical"]
    ∧ claimSeverityBucket (claimRelWeight "implements"
        + claimEntityWeight "functional_requirement"
        + claimChangeWeight "major_modification") = "high" := by
  constructor
  · decide
  · decide

/-- C3 (amended): the severity of a direct impact equals the claim's bucket
applied to `1 + s`, where `s` is the claimed weighted sum — the
implementation starts `base_severity` at 1, so every bucket boundary is
shifted down by one relative to the claim. -/
theorem C3_amended (r : Relationship) (e : Entity) (change_type : String) :
    calculate_impact_severity r e change_type =
      claimSeverityBucket (1 + claimRelWeight r.type + claimEntityWeight e.type
        + claimChangeWeight change_type) := by
  unfold calculate_impact_severity claimSeverityBucket claimRelWeight
    claimEntityWeight claimChangeWeight
  cases h1 : (r.type == "implements" || r.type == "validates") <;>
    cases h2 : (r.type == "depends_on") <;>
    cases h3 : (e.type == "functional_requirement" || e.type == "contract") <;>
    cases h4 : (e.type == "unit_of_work") <;>
    cases h5 : (change_type == "removal") <;>
    cases h6 : (change_type == "major_modification") <;>
    simp [h1, h2, h3, h4, h5, h6]

/-- C5 counterexample: `Query` with empty text and type `keyword` returns a
successful result (no error of any kind, in particular no `InvalidQuery`)
with an empty result list, instead of failing. -/
theorem C5_counterexample :
    (query exQS5 "" "keyword").error = none
    ∧ (query exQS5 "" "keyword").results = []
    ∧ (query exQS5 "" "keyword").query_type = "keyword" := by
  exact ⟨rfl, rfl, rfl⟩

/-- C5 (amended): for every store, `Query` with empty text succeeds with an
empty result list (and no error) under the `auto`, `keyword`,
`relationship` and `impact` types; `auto` resolves empty text to `keyword`.
No `InvalidQuery` error exists anywhere in the query engine. -/
theorem C5_amended (st : QueryState) :
    query st "" "auto" = query st "" "keyword"
    ∧ (query st "" "keyword").results = []
    ∧ (query st "" "keyword").error = none
    ∧ (query st "" "relationship").results = []
    ∧ (query st "" "relationship").error = none
    ∧ (query st "" "impact").results = []
    ∧ (query st "" "impact").error = none := by
  exact ⟨rfl, rfl, rfl, rfl, rfl, rfl, rfl⟩

/-- C6: for every graph, every entity id absent from the graph and every
change type, `analyze_change_impact` returns a report whose
`risk_assessment` is the typed error `Entity <id> not found` and whose
impact lists are all empty. -/
theorem C6_theorem (g : Graph) (entity_id change_type : String)
    (h : ∀ e ∈ g.entities, e.id ≠ entity_id) :
    (analyze_change_impact g entity_id change_type).risk_assessment =
      RiskInfo.err ("Entity " ++ entity_id ++ " not found")
    ∧ (analyze_change_impact g entity_id change_type).direct_impacts = []
    ∧ (analyze_change_impact g entity_id change_type).indirect_impacts = []
    ∧ (analyze_change_impact g entity_id change_type).cascade_impacts = [] := by
  have hidx : entityIndex g entity_id = none := by
    unfold entityIndex
    apply List.find?_eq_none.mpr
    intro e he
    simp only [beq_iff_eq]
    exact h e (List.mem_reverse.mp he)
  unfold analyze_change_impact
  rw [hidx]
  exact ⟨rfl, rfl, rfl, rfl⟩

/-- C6 witness: the hypothesis and conclusion at a concrete graph and a
concretely absent id. -/
theorem C6_witness :
    (∀ e ∈ exG3.entities, e.id ≠ "FR-404")
    ∧ (analyze_change_impact exG3 "FR-404" "removal").risk_assessment =
        RiskInfo.err ("Entity " ++ "FR-404" ++ " not found")
    ∧ (analyze_change_impact exG3 "FR-404" "removal").direct_impacts = []
    ∧ (analyze_change_impact exG3 "FR-404" "removal").indirect_impacts = []
    ∧ (analyze_change_impact exG3 "FR-404" "removal").cascade_impacts = [] := by
  refine ⟨by decide, ?_⟩
  exact C6_theorem exG3 "FR-404" "removal" (by decide)

/-- C8: indexing the Scenario A corpus (a `UoW-001` implementing the absent
`FR-001`) completes with status `success`, counts one entity and one
relationship, and the persisted relationship set contains exactly one
dangling reference, whose target is `FR-001` — the unresolved relationship
is recorded, not dropped. -/
theorem C8_theorem (now : String) :
    (index_ssot exCorpus8 now exOldStore4).result = ⟨1, 1, "success"⟩
    ∧ (danglingReferences (index_ssot exCorpus8 now exOldStore4).entities
        (index_ssot exCorpus8 now exOldStore4).relationships).map
        (fun r => r.getD "target" Json.null) = [Json.str "FR-001"] := by
  exact ⟨rfl, rfl⟩

/-- C1 counterexample: two indexer runs over the identical one-requirement
corpus at different wall-clock times produce entity lists that are not
byte-identical — the `metadata.last_updated` field records the run time. -/
theorem C1_counterexample :
    extract_entities exCorpus1 "2024-01-01T00:00:00" ≠
      extract_entities exCorpus1 "2024-01-02T00:00:00" := by
  intro h
  exact absurd (congrArg firstLastUpdated h) (by decide)

/-- Stripping the run timestamp from a functional-requirement entity erases
its dependence on the indexing time. -/
theorem strip_mkFREntity (n₁ n₂ : String) (p : String × Json) :
    stripRunTimestamps (mkFREntity n₁ p) = stripRunTimestamps (mkFREntity n₂ p) := rfl

theorem strip_mkNFREntity (n₁ n₂ : String) (p : String × Json) :
    stripRunTimestamps (mkNFREntity n₁ p) = stripRunTimestamps (mkNFREntity n₂ p) := rfl

theorem strip_mkUoWEntity (n₁ n₂ : String) (p : String × Json) :
    stripRunTimestamps (mkUoWEntity n₁ p) = stripRunTimestamps (mkUoWEntity n₂ p) := rfl

theorem strip_mkContractEntity (n₁ n₂ : String) (p : String × Json) :
    stripRunTimestamps (mkContractEntity n₁ p) = stripRunTimestamps (mkContractEntity n₂ p) := rfl

theorem strip_mkExtEntity (n₁ n₂ : String) (c : String) (p : String × Json) :
    stripRunTimestamps (mkExtEntity n₁ c p) = stripRunTimestamps (mkExtEntity n₂ c p) := rfl

/-- The stored content hash of each entity kind depends only on the document
record, never on the indexing time. -/
theorem hash_mkFREntity (n : String) (p : String × Json) :
    entityStoredHash (mkFREntity n p) = some (Json.str (generate_hash p.2)) := rfl

theorem hash_mkNFREntity (n : String) (p : String × Json) :
    entityStoredHash (mkNFREntity n p) = some (Json.str (generate_hash p.2)) := rfl

theorem hash_mkUoWEntity (n : String) (p : String × Json) :
    entityStoredHash (mkUoWEntity n p) = some (Json.str (generate_hash p.2)) := rfl

theorem hash_mkContractEntity (n : String) (p : String × Json) :
    entityStoredHash (mkContractEntity n p) = some (Json.str (generate_hash p.2)) := rfl

theorem hash_mkExtEntity (n : String) (c : String) (p : String × Json) :
    entityStoredHash (mkExtEntity n c p) = some (Json.str (generate_hash p.2)) := rfl

/-- Stripping the run timestamp from each relationship kind likewise erases
its dependence on the indexing time. -/
theorem strip_uowRels (n₁ n₂ : String) (p : String × Json) :
    (uowRels n₁ p).map stripRunTimestamps = (uowRels n₂ p).map stripRunTimestamps := by
  unfold uowRels
  simp only [List.map_append, List.map_map]
  exact congrArg₂ (· ++ ·) (List.map_congr_left fun x _ => rfl)
    (List.map_congr_left fun x _ => rfl)

theorem strip_contractRels (n₁ n₂ : String) (p : String × Json) :
    (contractRels n₁ p).map stripRunTimestamps =
      (contractRels n₂ p).map stripRunTimestamps := by
  unfold contractRels
  split
  · split
    · split
      · split
        · rfl
        · rfl
      · rfl
    · rfl
  · rfl

/-- C1 (amended): two indexer runs over identical document content produce
entity and relationship sets that are identical after erasing the
run-timestamp metadata fields (`metadata.last_updated` on entities and
`metadata.created` on relationships), and the stored content hashes agree
entity-by-entity.  (Byte-identity of the raw records fails only on those
timestamp fields, per `C1_counterexample`.) -/
theorem C1_amended (d : SSOTData) (n₁ n₂ : String) :
    (extract_entities d n₁).map stripRunTimestamps =
      (extract_entities d n₂).map stripRunTimestamps
    ∧ (extract_relationships d n₁).map stripRunTimestamps =
      (extract_relationships d n₂).map stripRunTimestamps
    ∧ (extract_entities d n₁).map entityStoredHash =
      (extract_entities d n₂).map entityStoredHash := by
  obtain ⟨fr, exts, cons⟩ := d
  have hFR : ∀ l : List (String × Json),
      l.map (stripRunTimestamps ∘ mkFREntity n₁) =
        l.map (stripRunTimestamps ∘ mkFREntity n₂) :=
    fun l => List.map_congr_left fun p _ => strip_mkFREntity n₁ n₂ p
  have hNFR : ∀ l : List (String × Json),
      l.map (stripRunTimestamps ∘ mkNFREntity n₁) =
        l.map (stripRunTimestamps ∘ mkNFREntity n₂) :=
    fun l => List.map_congr_left fun p _ => strip_mkNFREntity n₁ n₂ p
  have hUoW : ∀ l : List (String × Json),
      l.map (stripRunTimestamps ∘ mkUoWEntity n₁) =
        l.map (stripRunTimestamps ∘ mkUoWEntity n₂) :=
    fun l => List.map_congr_left fun p _ => strip_mkUoWEntity n₁ n₂ p
  have hCtr : ∀ l : List (String × Json),
      l.map (stripRunTimestamps ∘ mkContractEntity n₁) =
        l.map (stripRunTimestamps ∘ mkContractEntity n₂) :=
    fun l => List.map_congr_left fun p _ => strip_mkContractEntity n₁ n₂ p
  have hExt : ∀ l : List (String × List (String × Json)),
      l.map (List.map stripRunTimestamps ∘ fun c => List.map (mkExtEntity n₁ c.1) c.2) =
        l.map (List.map stripRunTimestamps ∘ fun c => List.map (mkExtEntity n₂ c.1) c.2) :=
    fun l => List.map_congr_left fun c _ => by
      simp only [Function.comp_apply, List.map_map]
      exact List.map_congr_left fun p _ => strip_mkExtEntity n₁ n₂ c.1 p
  have hFRh : ∀ l : List (String × Json),
      l.map (entityStoredHash ∘ mkFREntity n₁) =
        l.map (entityStoredHash ∘ mkFREntity n₂) :=
    fun l => List.map_congr_left fun p _ =>
      (hash_mkFREntity n₁ p).trans (hash_mkFREntity n₂ p).symm
  have hNFRh : ∀ l : List (String × Json),
      l.map (entityStoredHash ∘ mkNFREntity n₁) =
        l.map (entityStoredHash ∘ mkNFREntity n₂) :=
    fun l => List.map_congr_left fun p _ =>
      (hash_mkNFREntity n₁ p).trans (hash_mkNFREntity n₂ p).symm
  have hUoWh : ∀ l : List (String × Json),
      l.map (entityStoredHash ∘ mkUoWEntity n₁) =
        l.map (entityStoredHash ∘ mkUoWEntity n₂) :=
    fun l => List.map_congr_left fun p _ =>
      (hash_mkUoWEntity n₁ p).trans (hash_mkUoWEntity n₂ p).symm
  have hCtrh : ∀ l : List (String × Json),
      l.map (entityStoredHash ∘ mkContractEntity n₁) =
        l.map (entityStoredHash ∘ mkContractEntity n₂) :=
    fun l => List.map_congr_left fun p _ =>
      (hash_mkContractEntity n₁ p).trans (hash_mkContractEntity n₂ p).symm
  have hExth : ∀ l : List (String × List (String × Json)),
      l.map (List.map entityStoredHash ∘ fun c => List.map (mkExtEntity n₁ c.1) c.2) =
        l.map (List.map entityStoredHash ∘ fun c => List.map (mkExtEntity n₂ c.1) c.2) :=
    fun l => List.map_congr_left fun c _ => by
      simp only [Function.comp_apply, List.map_map]
      exact List.map_congr_left fun p _ =>
        (hash_mkExtEntity n₁ c.1 p).trans (hash_mkExtEntity n₂ c.1 p).symm
  have hUowR : ∀ l : List (String × Json),
      l.map (List.map stripRunTimestamps ∘ uowRels n₁) =
        l.map (List.map stripRunTimestamps ∘ uowRels n₂) :=
    fun l => List.map_congr_left fun p _ => strip_uowRels n₁ n₂ p
  have hCtrR : ∀ l : List (String × Json),
      l.map (List.map stripRunTimestamps ∘ contractRels n₁) =
        l.map (List.map stripRunTimestamps ∘ contractRels n₂) :=
    fun l => List.map_congr_left fun p _ => strip_contractRels n₁ n₂ p
  refine ⟨?_, ?_, ?_⟩
  · cases fr with
    | none =>
        simp only [extract_entities, List.map_append, List.map_map, List.map_flatten]
        rw [hCtr, hExt]
    | some fr =>
        simp only [extract_entities, List.map_append, List.map_map, List.map_flatten]
        rw [hFR, hNFR, hUoW, hCtr, hExt]
  · cases fr with
    | none =>
        simp only [extract_relationships, List.map_append, List.map_map, List.map_flatten]
        rw [hCtrR]
    | some fr =>
        simp only [extract_relationships, List.map_append, List.map_map, List.map_flatten]
        rw [hUowR, hCtrR]
  · cases fr with
    | none =>
        simp only [extract_entities, List.map_append, List.map_map, List.map_flatten]
        rw [hCtrh, hExth]
    | some fr =>
        simp only [extract_entities, List.map_append, List.map_map, List.map_flatten]
        rw [hFRh, hNFRh, hUoWh, hCtrh, hExth]

/-- C4 counterexample: with a non-trivial corpus, the state after the first
of the three sequential writes (new entities, old relationships, old
metadata) is an observable intermediate state that is neither the complete
old index nor the complete new index — the writes are direct overwrites,
not temp-file-then-rename. -/
theorem C4_counterexample :
    ∃ s ∈ save_graphrag_data_states exOldStore4 exNewEs4 exNewRels4
        "2024-06-01T12:00:00", s ≠ exOldStore4 ∧ s ≠ exNewStore4 := by
  refine ⟨exMixedStore4, ?_, ?_, ?_⟩
  · exact List.Mem.tail _ (List.Mem.head _)
  · intro h
    have h2 := congrArg (fun s => s.entitiesFile.length) h
    exact absurd h2 (by decide)
  · intro h
    have h2 := congrArg (fun s => s.relationshipsFile.length) h
    exact absurd h2 (by decide)

/-- C4 (amended): each index write performs three sequential whole-file
overwrites (entities, then relationships, then metadata) with no
temp-then-rename step.  Atomicity holds only per artifact: at every
intermediate state each individual artifact is either its complete old or
its complete new content, the trace starts at the old store and ends at the
complete new store — but a reader between writes can observe a mixture of
old and new artifacts. -/
theorem C4_amended (old : IndexStore) (entities rels : List Json) (now : String)
    (s : IndexStore) (h : s ∈ save_graphrag_data_states old entities rels now) :
    (s.entitiesFile = old.entitiesFile ∨ s.entitiesFile = entities)
    ∧ (s.relationshipsFile = old.relationshipsFile ∨ s.relationshipsFile = rels)
    ∧ (s.metadataFile = old.metadataFile ∨
        s.metadataFile = mkIndexMetadata entities rels now)
    ∧ (save_graphrag_data_states old entities rels now).head? = some old
    ∧ (save_graphrag_data_states old entities rels now).getLast? =
        some ⟨entities, rels, mkIndexMetadata entities rels now⟩ := by
  refine ⟨?_, ?_, ?_, rfl, rfl⟩ <;>
  · simp only [save_graphrag_data_states, List.mem_cons, List.not_mem_nil,
      or_false] at h
    rcases h with rfl | rfl | rfl | rfl <;> simp

/-- C4 witness: the amended statement at the concrete corpus, witnessed at
the mixed intermediate state. -/
theorem C4_witness :
    exMixedStore4 ∈ save_graphrag_data_states exOldStore4 exNewEs4 exNewRels4
      "2024-06-01T12:00:00"
    ∧ ((exMixedStore4.entitiesFile = exOldStore4.entitiesFile ∨
        exMixedStore4.entitiesFile = exNewEs4)
      ∧ (exMixedStore4.relationshipsFile = exOldStore4.relationshipsFile ∨
        exMixedStore4.relationshipsFile = exNewRels4)
      ∧ (exMixedStore4.metadataFile = exOldStore4.metadataFile ∨
        exMixedStore4.metadataFile =
          mkIndexMetadata exNewEs4 exNewRels4 "2024-06-01T12:00:00")
      ∧ (save_graphrag_data_states exOldStore4 exNewEs4 exNewRels4
          "2024-06-01T12:00:00").head? = some exOldStore4
      ∧ (save_graphrag_data_states exOldStore4 exNewEs4 exNewRels4
          "2024-06-01T12:00:00").getLast? =
          some ⟨exNewEs4, exNewRels4,
            mkIndexMetadata exNewEs4 exNewRels4 "2024-06-01T12:00:00"⟩) := by
  refine ⟨List.Mem.tail _ (List.Mem.head _), ?_⟩
  exact C4_amended exOldStore4 exNewEs4 exNewRels4 "2024-06-01T12:00:00"
    exMixedStore4 (List.Mem.tail _ (List.Mem.head _))

/-- Every direct impact's path is the two-element `[entityId, affectedId]`. -/
theorem direct_path_len (g : Graph) (eid ct : String) :
    ∀ i ∈ analyze_direct_impacts g eid ct, i.path.length = 2 := by
  intro i hi
  unfold analyze_direct_impacts at hi
  simp only [List.mem_filterMap, Option.map_eq_some'] at hi
  obtain ⟨r, -, ae, -, hfa⟩ := hi
  subst hfa
  rfl

/-- Every item the indirect inner loop adds has the three-element path
`[entityId, directId, affectedId]`. -/
theorem indirectRelLoop_path (g : Graph) (eid : String) (di : ImpactItem) :
    ∀ (rels : List Relationship) (acc : List ImpactItem),
      (∀ i ∈ acc, i.path.length = 3) →
      ∀ i ∈ indirectRelLoop g eid di rels acc, i.path.length = 3 := by
  intro rels
  induction rels with
  | nil => intro acc hacc i hi; exact hacc i hi
  | cons r rest ih =>
      intro acc hacc i hi
      rw [indirectRelLoop] at hi
      split at hi <;> try split at hi
      all_goals try split at hi
      all_goals first
        | exact ih _ hacc i hi
        | · refine ih _ ?_ i hi
            intro j hj
            rcases List.mem_append.mp hj with hj | hj
            · exact hacc j hj
            · rw [List.mem_singleton] at hj; subst hj; rfl

theorem indirect_path_len (g : Graph) (eid : String) (directs : List ImpactItem) :
    ∀ i ∈ analyze_indirect_impacts g eid directs, i.path.length = 3 := by
  unfold analyze_indirect_impacts
  suffices h : ∀ (ds : List ImpactItem) (acc : List ImpactItem),
      (∀ i ∈ acc, i.path.length = 3) →
      ∀ i ∈ indirectLoop g eid ds acc, i.path.length = 3 by
    exact h directs [] (by intro i hi; cases hi)
  intro ds
  induction ds with
  | nil => intro acc hacc i hi; exact hacc i hi
  | cons d rest ih =>
      intro acc hacc i hi
      rw [indirectLoop] at hi
      exact ih _ (indirectRelLoop_path g eid d _ acc hacc) i hi

/-- One cascade expansion appends at most one item per scanned relationship,
and every appended item extends the current path by one entity. -/
theorem cascadeStep_spec (g : Graph) (cur : String) (path : List String) :
    ∀ (rels : List Relationship) (visited : List String) (cascade : List ImpactItem)
      (pushes : List (String × List String)),
      (cascadeStep g cur path rels visited cascade pushes).2.1.length ≤
        cascade.length + rels.length
      ∧ ∀ i ∈ (cascadeStep g cur path rels visited cascade pushes).2.1,
          i ∈ cascade ∨ i.path.length = path.length + 1 := by
  intro rels
  induction rels with
  | nil =>
      intro visited cascade pushes
      exact ⟨Nat.le_add_right _ _, fun i hi => Or.inl hi⟩
  | cons r rest ih =>
      intro visited cascade pushes
      rw [cascadeStep]
      split <;> try split
      all_goals try split
      all_goals refine ⟨le_trans (ih _ _ _).1 (by
        simp only [List.length_append, List.length_cons, List.length_nil]
        omega), fun i hi => ?_⟩
      all_goals first
        | exact (ih _ _ _).2 i hi
        | · rcases (ih _ _ _).2 i hi with hmem | hlen
            · rcases List.mem_append.mp hmem with h | h
              · exact Or.inl h
              · rw [List.mem_singleton] at h
                subst h
                right
                simp
            · exact Or.inr hlen

/-- The cascade BFS keeps every path at length ≤ 5 and, because the 20-item
cap is re-checked only between expansions, its output stays below
`19 + |relationships|` items. -/
theorem cascadeLoop_spec (g : Graph) :
    ∀ (fuel : Nat) (queue : List (String × List String)) (visited : List String)
      (cascade : List ImpactItem),
      (cascade.length ≤ 19 + g.relationships.length →
        (cascadeLoop g fuel queue visited cascade).length ≤
          19 + g.relationships.length)
      ∧ ((∀ i ∈ cascade, i.path.length ≤ 5) →
          ∀ i ∈ cascadeLoop g fuel queue visited cascade, i.path.length ≤ 5) := by
  intro fuel
  induction fuel with
  | zero => intro queue visited cascade; exact ⟨fun h => h, fun h => h⟩
  | succ fuel ih =>
      intro queue visited cascade
      match queue with
      | [] => exact ⟨fun h => h, fun h => h⟩
      | (cur, path) :: rest =>
          rw [cascadeLoop]
          split
          · split
            · exact ih rest visited cascade
            · rename_i h20 h5
              constructor
              · intro hlen
                refine (ih _ _ _).1 ?_
                refine le_trans (cascadeStep_spec g cur path _ _ _ _).1 ?_
                have h1 : (touchingRels g cur).length ≤ g.relationships.length :=
                  List.length_filter_le _ _
                omega
              · intro hpaths
                refine (ih _ _ _).2 ?_
                intro i hi
                rcases (cascadeStep_spec g cur path _ _ _ _).2 i hi with hmem | hlen
                · exact hpaths i hmem
                · rw [hlen]; omega
          · exact ⟨fun h => h, fun h => h⟩

/-- C2 counterexample: on the star graph `exG2` the cascade phase appends 21
items during the single expansion of `F1` (the `< 20` cap is checked only
between expansions), so `len(cascade_impacts) = 21 > 20`. -/
theorem C2_counterexample :
    ¬ ((analyze_change_impact exG2 "S" "modification").cascade_impacts.length ≤ 20) := by
  decide

/-- C2 (amended): every impact item's path has length ≤ 5 (direct paths have
length 2, indirect ones 3, cascade ones at most 5), and
`len(cascade_impacts) ≤ 19 + |relationships|`: the 20-item cap is enforced
only between BFS node expansions, so a single expansion can push the count
past 20, by at most the expanded node's degree. -/
theorem C2_amended (g : Graph) (eid ct : String) :
    (((analyze_change_impact g eid ct).direct_impacts
      ++ (analyze_change_impact g eid ct).indirect_impacts
      ++ (analyze_change_impact g eid ct).cascade_impacts).all
        (fun i => decide (i.path.length ≤ 5))) = true
    ∧ (analyze_change_impact g eid ct).cascade_impacts.length ≤
        19 + g.relationships.length := by
  unfold analyze_change_impact
  cases h : entityIndex g eid with
  | none =>
      simp only [h]
      exact ⟨rfl, Nat.zero_le _⟩
  | some e =>
      simp only [h, List.all_eq_true, decide_eq_true_eq]
      constructor
      · intro i hi
        rcases List.mem_append.mp hi with hi | hcas
        · rcases List.mem_append.mp hi with hdir | hind
          · rw [direct_path_len g eid ct i hdir]; omega
          · rw [indirect_path_len g eid _ i hind]; omega
        · unfold analyze_cascade_impacts at hcas
          exact (cascadeLoop_spec g _ _ _ _).2 (by intro j hj; cases hj) i hcas
      · unfold analyze_cascade_impacts
        exact (cascadeLoop_spec g _ _ _ _).1 (Nat.zero_le _)

/-- C7 counterexample: for the query `alpha beta` over `exQS7`, the merged
result list carries relevances `[1/4, 1]` in that order — the first entry's
relevance is strictly smaller than the second's, so the merged list is not
sorted descending by relevance (the per-token lists are each sorted, but
the concatenated, de-duplicated merge is never re-sorted). -/
theorem C7_counterexample :
    (process_keyword_query exQS7 "alpha beta").map (fun h => h.relevance) =
      [calculate_relevance "alpha" (searchableText exEntityA7),
       calculate_relevance "beta" (searchableText exEntityB7)]
    ∧ calculate_relevance "alpha" (searchableText exEntityA7) <
        calculate_relevance "beta" (searchableText exEntityB7) := by
  constructor
  · rfl
  · unfold calculate_relevance
    rw [show countOcc (strToLower "alpha").toList
          (strToLower (searchableText exEntityA7)).toList = 1 from by decide,
        show wordCount (searchableText exEntityA7) = 4 from by decide,
        show countOcc (strToLower "beta").toList
          (strToLower (searchableText exEntityB7)).toList = 1 from by decide,
        show wordCount (searchableText exEntityB7) = 1 from by decide]
    norm_num

/-- The de-duplication pass keeps pairwise-distinct entity ids, none of them
previously seen. -/
theorem dedupById_nodup :
    ∀ (l : List KeywordHit) (seen : List String),
      ((dedupById seen l).map (fun h => h.entity.id)).Nodup
      ∧ ∀ h ∈ dedupById seen l, h.entity.id ∉ seen := by
  intro l
  induction l with
  | nil =>
      intro seen
      exact ⟨List.nodup_nil, fun h hh => absurd hh (List.not_mem_nil h)⟩
  | cons r rest ih =>
      intro seen
      rw [dedupById]
      split
      · exact ⟨(ih seen).1, fun h hh => (ih seen).2 h hh⟩
      · rename_i hseen
        constructor
        · simp only [List.map_cons, List.nodup_cons]
          refine ⟨?_, (ih _).1⟩
          intro hmem
          rw [List.mem_map] at hmem
          obtain ⟨h, hh, hid⟩ := hmem
          exact (ih (r.entity.id :: seen)).2 h hh (hid ▸ List.mem_cons_self _ _)
        · intro h hh
          rcases List.mem_cons.mp hh with rfl | hh
          · intro hs
            exact hseen (List.elem_iff.mpr hs)
          · intro hs
            exact (ih (r.entity.id :: seen)).2 h hh (List.mem_cons_of_mem _ hs)

/-- Everything the de-duplication pass keeps was in its input. -/
theorem dedupById_subset :
    ∀ (l : List KeywordHit) (seen : List String) (h : KeywordHit),
      h ∈ dedupById seen l → h ∈ l := by
  intro l
  induction l with
  | nil => intro seen h hh; cases hh
  | cons r rest ih =>
      intro seen h hh
      rw [dedupById] at hh
      split at hh
      · exact List.mem_cons_of_mem _ (ih seen h hh)
      · rcases List.mem_cons.mp hh with rfl | hh
        · exact List.mem_cons_self _ _
        · exact List.mem_cons_of_mem _ (ih _ h hh)

/-- Membership in a stable insertion is membership in the inserted element
or the original list. -/
theorem mem_insertStable {α : Type} (le : α → α → Bool) (x a : α) :
    ∀ l, a ∈ insertStable le x l ↔ a = x ∨ a ∈ l := by
  intro l
  induction l with
  | nil => simp [insertStable]
  | cons y ys ih =>
      rw [insertStable]
      split
      · simp [List.mem_cons]
      · simp only [List.mem_cons, ih]
        tauto

theorem mem_sortStable {α : Type} (le : α → α → Bool) (a : α) :
    ∀ l, a ∈ sortStable le l ↔ a ∈ l := by
  intro l
  induction l with
  | nil => simp [sortStable]
  | cons y ys ih =>
      show a ∈ insertStable le y (sortStable le ys) ↔ _
      rw [mem_insertStable, List.mem_cons]
      rw [ih]

/-- A stable insertion into a sorted list stays sorted, for a transitive and
total comparator. -/
theorem pairwise_insertStable {α : Type} (le : α → α → Bool)
    (htrans : ∀ a b c, le a b = true → le b c = true → le a c = true)
    (htotal : ∀ a b, le a b = true ∨ le b a = true) (x : α) :
    ∀ l, List.Pairwise (fun a b => le a b = true) l →
      List.Pairwise (fun a b => le a b = true) (insertStable le x l) := by
  intro l
  induction l with
  | nil => intro _; exact List.pairwise_singleton _ _
  | cons y ys ih =>
      intro hp
      rw [List.pairwise_cons] at hp
      rw [insertStable]
      split
      · rename_i hxy
        rw [List.pairwise_cons]
        constructor
        · intro z hz
          rcases List.mem_cons.mp hz with rfl | hz
          · exact hxy
          · exact htrans x y z hxy (hp.1 z hz)
        · exact List.pairwise_cons.mpr hp
      · rename_i hxy
        have hyx : le y x = true := by
          rcases htotal x y with h | h
          · exact absurd h hxy
          · exact h
        rw [List.pairwise_cons]
        constructor
        · intro z hz
          rcases (mem_insertStable le x z ys).mp hz with rfl | hz
          · exact hyx
          · exact hp.1 z hz
        · exact ih hp.2

theorem pairwise_sortStable {α : Type} (le : α → α → Bool)
    (htrans : ∀ a b c, le a b = true → le b c = true → le a c = true)
    (htotal : ∀ a b, le a b = true ∨ le b a = true) :
    ∀ l, List.Pairwise (fun a b => le a b = true) (sortStable le l) := by
  intro l
  induction l with
  | nil => exact List.Pairwise.nil
  | cons y ys ih => exact pairwise_insertStable le htrans htotal y _ ih

/-- Each per-token result list of `find_requirements_by_keyword` is sorted
descending by relevance (Python's stable `sort(..., reverse=True)`). -/
theorem find_requirements_sorted (st : QueryState) (kw : String) :
    List.Pairwise (fun a b : KeywordHit => b.relevance ≤ a.relevance)
      (find_requirements_by_keyword st kw) := by
  unfold find_requirements_by_keyword
  refine (pairwise_sortStable _ ?_ ?_ _).imp (fun h => of_decide_eq_true h)
  · intro a b c h1 h2
    simp only [decide_eq_true_eq] at h1 h2 ⊢
    exact le_trans h2 h1
  · intro a b
    rcases le_total b.relevance a.relevance with h | h
    · exact Or.inl (decide_eq_true h)
    · exact Or.inr (decide_eq_true h)

/-- Every hit of `find_requirements_by_keyword` carries exactly the
relevance `_calculate_relevance` assigns to its entity's searchable text. -/
theorem find_requirements_relevance (st : QueryState) (kw : String) :
    ((find_requirements_by_keyword st kw).all (fun r =>
      decide (r.relevance = calculate_relevance kw (searchableText r.entity)))) = true := by
  rw [List.all_eq_true]
  intro r hr
  unfold find_requirements_by_keyword at hr
  rw [mem_sortStable, List.mem_filterMap] at hr
  obtain ⟨e, -, hfe⟩ := hr
  split at hfe
  · split at hfe
    · rw [Option.some.injEq] at hfe
      subst hfe
      simp
    · cases hfe
  · cases hfe

/-- C7 (amended): the merged keyword-query result has at most one entry per
entity id (first matching token wins); each per-token list is individually
sorted descending by relevance with ties kept in entity-store order; every
merged entry comes from one of the per-token lists and carries the
relevance `(occurrences of that token in the lowercased searchable text) /
(word count of the searchable text)`.  The merged list itself is not
re-sorted across tokens, and ties are not broken by entity id
(`C7_counterexample`). -/
theorem C7_amended (st : QueryState) (qt kw : String) :
    ((process_keyword_query st qt).map (fun h => h.entity.id)).Nodup
    ∧ List.Pairwise (fun a b : KeywordHit => b.relevance ≤ a.relevance)
        (find_requirements_by_keyword st kw)
    ∧ ((process_keyword_query st qt).all (fun r =>
        (splitWS qt).any (fun w =>
          decide (r ∈ find_requirements_by_keyword st w)))) = true
    ∧ ((find_requirements_by_keyword st kw).all (fun r =>
        decide (r.relevance = calculate_relevance kw (searchableText r.entity)))) = true := by
  refine ⟨(dedupById_nodup _ []).1, find_requirements_sorted st kw, ?_,
    find_requirements_relevance st kw⟩
  rw [List.all_eq_true]
  intro r hr
  unfold process_keyword_query at hr
  have hr2 := dedupById_subset _ [] r hr
  rw [List.mem_flatten] at hr2
  obtain ⟨l', hl', hrl⟩ := hr2
  rw [List.mem_map] at hl'
  obtain ⟨w, hw, rfl⟩ := hl'
  rw [List.any_eq_true]
  exact ⟨w, hw, decide_eq_true hrl⟩

/-- A flatten of pointwise-empty lists is empty. -/
theorem flatten_map_nil {α β : Type} (f : α → List β) (l : List α)
    (h : ∀ x ∈ l, f x = []) : (l.map f).flatten = [] := by
  rw [List.flatten_eq_nil_iff]
  intro l' hl'
  rw [List.mem_map] at hl'
  obtain ⟨x, hx, rfl⟩ := hl'
  exact h x hx

/-- C10: when neither index file exists, the engines initialize with empty
entity and relationship sets, and the read operations complete over the
empty graph without any file-not-found or index-corruption failure:
keyword- and relationship-type queries return successful empty results for
every query text, coverage/gap analysis reports four empty gap lists, the
impact matrix contains only `none` entries for every requested id list, and
the critical-dependency search returns nothing. -/
theorem C10_theorem :
    load_entities none = [] ∧ load_relationships none = []
    ∧ (∀ text : String, (query exQS10 text "keyword").results = []
        ∧ (query exQS10 text "keyword").error = none)
    ∧ (∀ text : String, (query exQS10 text "relationship").results = []
        ∧ (query exQS10 text "relationship").error = none)
    ∧ (∀ text : String, (query exQS10 text "coverage").results =
          [QResult.coverageRes ⟨[], [], [], []⟩]
        ∧ (query exQS10 text "coverage").error = none
        ∧ (query exQS10 text "gap").results =
          [QResult.coverageRes ⟨[], [], [], []⟩])
    ∧ analyze_coverage_gaps exQS10 = ⟨[], [], [], []⟩
    ∧ find_critical_dependencies exG10 = []
    ∧ (∀ ids : List String, ((generate_impact_matrix exG10 ids).all
        (fun row => row.2.all (fun c => c.2 == "none"))) = true) := by
  refine ⟨rfl, rfl, ?_, ?_, fun text => ⟨rfl, rfl, rfl⟩, rfl, rfl, ?_⟩
  · intro text
    constructor
    · show (process_keyword_query exQS10 text).map QResult.keywordHit = []
      unfold process_keyword_query
      rw [flatten_map_nil (find_requirements_by_keyword exQS10) (splitWS text)
        (fun kw _ => rfl)]
      rfl
    · rfl
  · intro text
    constructor
    · show process_relationship_query exQS10 text = []
      unfold process_relationship_query
      refine flatten_map_nil _ _ (fun eid _ => ?_)
      rw [List.append_eq_nil]
      exact ⟨ite_self _, rfl⟩
    · rfl
  · intro ids
    rw [List.all_eq_true]
    intro row hrow
    unfold generate_impact_matrix at hrow
    rw [List.mem_map] at hrow
    obtain ⟨sid, -, rfl⟩ := hrow
    rw [List.all_eq_true]
    intro c hc
    simp only [List.mem_filterMap] at hc
    obtain ⟨t, -, hft⟩ := hc
    split at hft
    · cases hft
    · rename_i hneq
      rw [Bool.not_eq_true] at hneq
      rw [Option.some.injEq] at hft
      subst hft
      show (calculate_entity_impact exG10 sid t == "none") = true
      unfold calculate_entity_impact find_shortest_path
      rw [hneq]
      rfl

/-- The `ssot_updates` accumulation loop is the filter the claim describes. -/
theorem foldl_if_append {α : Type} (cond : α → Bool) (key : α → String) :
    ∀ (l : List α) (acc : List String),
      l.foldl (fun acc p => if cond p then acc ++ [key p] else acc) acc
        = acc ++ (l.filter cond).map key := by
  intro l
  induction l with
  | nil => intro acc; simp
  | cons p rest ih =>
      intro acc
      rw [List.foldl_cons]
      cases hc : cond p <;>
        simp [hc, List.filter_cons, ih, List.append_assoc]

/-- The `graphrag_updates`/`conflicts` accumulation loop is the pair of
filters the claim describes. -/
theorem foldl_pair {α : Type} (skip derived : α → Bool) (key : α → String) :
    ∀ (l : List α) (acc : List String × List String),
      l.foldl (fun acc p =>
        if skip p then acc
        else if derived p then (acc.1 ++ [key p], acc.2)
        else (acc.1, acc.2 ++ [key p])) acc
      = (acc.1 ++ (l.filter (fun p => !skip p && derived p)).map key,
         acc.2 ++ (l.filter (fun p => !skip p && !derived p)).map key) := by
  intro l
  induction l with
  | nil => intro acc; simp
  | cons p rest ih =>
      intro acc
      rw [List.foldl_cons]
      cases hs : skip p <;> cases hd : derived p <;>
        simp [hs, hd, List.filter_cons, ih, List.append_assoc]

/-- A fold of Python dict insertions whose keys are fresh (no key repeats,
none already bound) just appends the bindings in order. -/
theorem dictInsert_fold_eq {α β : Type} (key : α → String) (f : α → β) :
    ∀ (l : List α) (m : List (String × β)),
      (m.map Prod.fst ++ l.map key).Nodup →
      l.foldl (fun m e => dictInsert m (key e) (f e)) m
        = m ++ l.map (fun e => (key e, f e)) := by
  intro l
  induction l with
  | nil => intro m _; simp
  | cons e rest ih =>
      intro m hnd
      rw [List.foldl_cons]
      have hfresh : (m.any (fun p => p.1 == key e)) = false := by
        cases h : m.any (fun p => p.1 == key e) with
        | false => rfl
        | true =>
            rw [List.any_eq_true] at h
            obtain ⟨q, hq, hqe⟩ := h
            rw [beq_iff_eq] at hqe
            exfalso
            rw [List.nodup_append] at hnd
            exact hnd.2.2 (hqe ▸ List.mem_map_of_mem Prod.fst hq)
              (List.mem_cons_self _ _)
      have hstep : dictInsert m (key e) (f e) = m ++ [(key e, f e)] := by
        unfold dictInsert
        rw [hfresh]
        rfl
      rw [hstep, ih]
      · simp [List.append_assoc]
      · simp only [List.map_append, List.map_cons, List.map_nil]
        rw [List.append_assoc]
        simpa using hnd

/-- In a list with pairwise-distinct keys, `find?` by the key of a member
returns exactly that member. -/
theorem find_key_unique {β : Type} (key : β → String) :
    ∀ (l : List β) (x : β), x ∈ l → ∀ k : String, key x = k →
      (l.map key).Nodup → l.find? (fun e => key e == k) = some x := by
  intro l
  induction l with
  | nil => intro x hx; cases hx
  | cons y ys ih =>
      intro x hx k hk hnd
      rw [List.map_cons, List.nodup_cons] at hnd
      cases hbeq : (key y == k) with
      | true =>
          have hstep : List.find? (fun e => key e == k) (y :: ys) = some y := by
            rw [List.find?_cons]
            simp [hbeq]
          rw [hstep]
          rw [beq_iff_eq] at hbeq
          rcases List.mem_cons.mp hx with rfl | hx
          · rfl
          · exfalso
            apply hnd.1
            have hmem : key x ∈ List.map key ys := List.mem_map_of_mem key hx
            rw [hk, ← hbeq] at hmem
            exact hmem
      | false =>
          have hstep : List.find? (fun e => key e == k) (y :: ys)
              = List.find? (fun e => key e == k) ys := by
            rw [List.find?_cons]
            simp [hbeq]
          rw [hstep]
          rcases List.mem_cons.mp hx with rfl | hx
          · rw [hk] at hbeq
            simp at hbeq
          · exact ih x hx k hk hnd.2

/-- The ids the indexer writes are the document keys (or, for contracts and
extensions, their derived ids). -/
theorem idStr_mkFREntity (now : String) (p : String × Json) :
    Json.idStr (mkFREntity now p) = p.1 := rfl

theorem idStr_mkNFREntity (now : String) (p : String × Json) :
    Json.idStr (mkNFREntity now p) = p.1 := rfl

theorem idStr_mkUoWEntity (now : String) (p : String × Json) :
    Json.idStr (mkUoWEntity now p) = p.1 := rfl

/-- C9 counterexample: two concrete flaws in the claim.  First, with the
index's entity artifact absent, `detect_changes` reports no
`authoritative_updates` at all even though `FR-001` is derivable from the
documents and absent from the index.  Second, `detect_changes` is a pure
function of the two states, so with a stale stored hash and no document
change it reports `["FR-001"]` on the first *and* on the second run — the
second run is not empty. -/
theorem C9_counterexample :
    ((detect_changes exSSOT9 ⟨none⟩).ssot_updates = []
      ∧ (extract_ssot_entities exSSOT9).map (fun p => p.1) = ["FR-001"])
    ∧ (detect_changes exSSOT9 exGRStale9).ssot_updates = ["FR-001"]
    ∧ (detect_changes exSSOT9 exGRStale9).ssot_updates =
        (detect_changes exSSOT9 exGRStale9).ssot_updates := by
  exact ⟨⟨rfl, rfl⟩, by decide, rfl⟩

/-- When the whole index has pairwise-distinct ids, an SSOT-derivable entity
whose document record is unchanged is never reported: its index counterpart
is found by id and the two hashes agree. -/
theorem ssotUpdateCond_false_of_idx (idx : List Json)
    (hnodup : (idx.map Json.idStr).Nodup) (q : String × Json) (ent : Json)
    (hmem : ent ∈ idx) (hid : Json.idStr ent = q.1)
    (hhash : entityStoredHash ent = some (Json.str (generate_hash q.2)))
    (se : SyncEntity) (hse : se.hash = generate_hash q.2) :
    ssotUpdateCond (gesDict idx) (q.1, se) = false := by
  have hdict : gesDict idx = idx.map (fun e => (Json.idStr e, e)) := by
    unfold gesDict
    exact (dictInsert_fold_eq Json.idStr (fun e => e) idx []
      (by simpa using hnodup)).trans (List.nil_append _)
  unfold ssotUpdateCond
  rw [hdict]
  unfold assocFind
  rw [List.find?_map]
  have hfind : idx.find?
      ((fun p : String × Json => p.1 == q.1) ∘ (fun e => (Json.idStr e, e)))
      = some ent :=
    find_key_unique Json.idStr idx ent hmem q.1 hid hnodup
  rw [hfind]
  show entities_differ se ent = false
  unfold entities_differ
  rw [hhash, hse]
  simp

/-- C9 (amended): `DetectChanges` classifies exactly as the claim states
*when the index's entity artifact is present*; with the artifact absent it
reports all three lists empty (no entity is classified at all).  It is a
pure function of the two states, so a second run over unchanged states
repeats the first run's report rather than being empty; the second run does
report empty `authoritative_updates` when the index was rebuilt from the
current documents (with globally distinct entity ids) in between. -/
theorem C9_amended (ssot : SSOTData) (ges : List Json) (now : String) :
    detect_changes ssot ⟨none⟩ = ⟨[], [], []⟩
    ∧ (detect_changes ssot ⟨some ges⟩).ssot_updates =
        claimAuthoritativeUpdates ssot ges
    ∧ (detect_changes ssot ⟨some ges⟩).graphrag_updates =
        claimDerivedUpdates ssot ges
    ∧ (detect_changes ssot ⟨some ges⟩).conflicts = claimConflicts ssot ges
    ∧ (((extract_entities ssot now).map Json.idStr).Nodup →
        (detect_changes ssot ⟨some (extract_entities ssot now)⟩).ssot_updates
          = []) := by
  have hchar : ∀ ges' : List Json,
      (detect_changes ssot ⟨some ges'⟩).ssot_updates =
        claimAuthoritativeUpdates ssot ges' := by
    intro ges'
    simp only [detect_changes]
    rw [foldl_if_append (ssotUpdateCond (gesDict ges'))
      (fun p : String × SyncEntity => p.1), List.nil_append]
    rfl
  refine ⟨rfl, hchar ges, ?_, ?_, ?_⟩
  · simp only [detect_changes]
    rw [foldl_pair
      (fun p : String × Json => (extract_ssot_entities ssot).any (fun q => q.1 == p.1))
      (fun p : String × Json => isDerivedType p.2)
      (fun p : String × Json => p.1)]
    simp only [List.nil_append]
    rfl
  · simp only [detect_changes]
    rw [foldl_pair
      (fun p : String × Json => (extract_ssot_entities ssot).any (fun q => q.1 == p.1))
      (fun p : String × Json => isDerivedType p.2)
      (fun p : String × Json => p.1)]
    simp only [List.nil_append]
    rfl
  · intro hnodup
    rw [hchar]
    unfold claimAuthoritativeUpdates
    rw [List.map_eq_nil_iff, List.filter_eq_nil_iff]
    intro p hp
    rw [Bool.not_eq_true]
    cases hfr : ssot.framework_requirements with
    | none =>
        exfalso
        simp only [extract_ssot_entities, hfr] at hp
        cases hp
    | some fr =>
        have hids : (extract_entities ssot now).map Json.idStr
            = fr.functional_requirements.map Prod.fst
              ++ fr.non_functional_requirements.map Prod.fst
              ++ fr.units_of_work.map Prod.fst
              ++ ssot.contracts.map (Json.idStr ∘ mkContractEntity now)
              ++ (ssot.extensions.map
                  (fun c => c.2.map (mkExtEntity now c.1))).flatten.map Json.idStr := by
          simp only [extract_entities, hfr, List.map_append, List.map_map]
          rw [show List.map (Json.idStr ∘ mkFREntity now) fr.functional_requirements
                = fr.functional_requirements.map Prod.fst from
              List.map_congr_left fun p _ => rfl,
            show List.map (Json.idStr ∘ mkNFREntity now) fr.non_functional_requirements
                = fr.non_functional_requirements.map Prod.fst from
              List.map_congr_left fun p _ => rfl,
            show List.map (Json.idStr ∘ mkUoWEntity now) fr.units_of_work
                = fr.units_of_work.map Prod.fst from
              List.map_congr_left fun p _ => rfl]
        have hSK : (fr.functional_requirements.map Prod.fst
            ++ fr.non_functional_requirements.map Prod.fst
            ++ fr.units_of_work.map Prod.fst).Nodup := by
          have h := hids ▸ hnodup
          exact h.of_append_left.of_append_left
        have hF : (fr.functional_requirements.map Prod.fst).Nodup :=
          hSK.of_append_left.of_append_left
        have hFN : (fr.functional_requirements.map Prod.fst
            ++ fr.non_functional_requirements.map Prod.fst).Nodup :=
          hSK.of_append_left
        have h0 : fr.functional_requirements.foldl (fun m p =>
              dictInsert m p.1
                (⟨p.1, "functional_requirement", p.2, generate_hash p.2⟩ : SyncEntity)) []
            = [] ++ fr.functional_requirements.map (fun p =>
                (p.1, (⟨p.1, "functional_requirement", p.2, generate_hash p.2⟩ : SyncEntity))) :=
          dictInsert_fold_eq Prod.fst _ _ [] (by simpa using hF)
        have h1 : fr.non_functional_requirements.foldl (fun m p =>
              dictInsert m p.1
                (⟨p.1, "non_functional_requirement", p.2, generate_hash p.2⟩ : SyncEntity))
              ([] ++ fr.functional_requirements.map (fun p =>
                (p.1, (⟨p.1, "functional_requirement", p.2, generate_hash p.2⟩ : SyncEntity))))
            = ([] ++ fr.functional_requirements.map (fun p =>
                (p.1, (⟨p.1, "functional_requirement", p.2, generate_hash p.2⟩ : SyncEntity))))
              ++ fr.non_functional_requirements.map (fun p =>
                (p.1, (⟨p.1, "non_functional_requirement", p.2, generate_hash p.2⟩ : SyncEntity))) := by
          refine dictInsert_fold_eq Prod.fst _ _ _ ?_
          simp only [List.nil_append, List.map_map]
          rw [show List.map (Prod.fst ∘ fun p : String × Json =>
              (p.1, (⟨p.1, "functional_requirement", p.2, generate_hash p.2⟩ : SyncEntity)))
              fr.functional_requirements = fr.functional_requirements.map Prod.fst from
            List.map_congr_left fun p _ => rfl]
          exact hFN
        have h2 : fr.units_of_work.foldl (fun m p =>
              dictInsert m p.1
                (⟨p.1, "unit_of_work", p.2, generate_hash p.2⟩ : SyncEntity))
              (([] ++ fr.functional_requirements.map (fun p =>
                (p.1, (⟨p.1, "functional_requirement", p.2, generate_hash p.2⟩ : SyncEntity))))
              ++ fr.non_functional_requirements.map (fun p =>
                (p.1, (⟨p.1, "non_functional_requirement", p.2, generate_hash p.2⟩ : SyncEntity))))
            = (([] ++ fr.functional_requirements.map (fun p =>
                (p.1, (⟨p.1, "functional_requirement", p.2, generate_hash p.2⟩ : SyncEntity))))
              ++ fr.non_functional_requirements.map (fun p =>
                (p.1, (⟨p.1, "non_functional_requirement", p.2, generate_hash p.2⟩ : SyncEntity))))
              ++ fr.units_of_work.map (fun p =>
                (p.1, (⟨p.1, "unit_of_work", p.2, generate_hash p.2⟩ : SyncEntity))) := by
          refine dictInsert_fold_eq Prod.fst _ _ _ ?_
          simp only [List.nil_append, List.map_append, List.map_map]
          rw [show List.map (Prod.fst ∘ fun p : String × Json =>
              (p.1, (⟨p.1, "functional_requirement", p.2, generate_hash p.2⟩ : SyncEntity)))
              fr.functional_requirements = fr.functional_requirements.map Prod.fst from
            List.map_congr_left fun p _ => rfl,
            show List.map (Prod.fst ∘ fun p : String × Json =>
              (p.1, (⟨p.1, "non_functional_requirement", p.2, generate_hash p.2⟩ : SyncEntity)))
              fr.non_functional_requirements
              = fr.non_functional_requirements.map Prod.fst from
            List.map_congr_left fun p _ => rfl]
          exact hSK
        have hsync : extract_ssot_entities ssot
            = (([] ++ fr.functional_requirements.map (fun p =>
                (p.1, (⟨p.1, "functional_requirement", p.2, generate_hash p.2⟩ : SyncEntity))))
              ++ fr.non_functional_requirements.map (fun p =>
                (p.1, (⟨p.1, "non_functional_requirement", p.2, generate_hash p.2⟩ : SyncEntity))))
              ++ fr.units_of_work.map (fun p =>
                (p.1, (⟨p.1, "unit_of_work", p.2, generate_hash p.2⟩ : SyncEntity))) := by
          simp only [extract_ssot_entities, hfr]
          rw [h0, h1, h2]
        rw [hsync] at hp
        simp only [List.nil_append, List.mem_append, List.mem_map] at hp
        rcases hp with (⟨q, hq, rfl⟩ | ⟨q, hq, rfl⟩) | ⟨q, hq, rfl⟩
        · refine ssotUpdateCond_false_of_idx _ hnodup q (mkFREntity now q) ?_ rfl rfl _ rfl
          simp only [extract_entities, hfr]
          exact List.mem_append_left _ (List.mem_append_left _
            (List.mem_append_left _ (List.mem_append_left _
              (List.mem_map_of_mem _ hq))))
        · refine ssotUpdateCond_false_of_idx _ hnodup q (mkNFREntity now q) ?_ rfl rfl _ rfl
          simp only [extract_entities, hfr]
          exact List.mem_append_left _ (List.mem_append_left _
            (List.mem_append_left _ (List.mem_append_right _
              (List.mem_map_of_mem _ hq))))
        · refine ssotUpdateCond_false_of_idx _ hnodup q (mkUoWEntity now q) ?_ rfl rfl _ rfl
          simp only [extract_entities, hfr]
          exact List.mem_append_left _ (List.mem_append_left _
            (List.mem_append_right _ (List.mem_map_of_mem _ hq)))

/-- C9 witness: the fresh-index conjunct at a concrete corpus — the rebuilt
index has distinct ids and the run right after re-indexing reports no
authoritative updates. -/
theorem C9_witness :
    ((extract_entities exSSOT9 "2024-06-01T12:00:00").map Json.idStr).Nodup
    ∧ (detect_changes exSSOT9
        ⟨some (extract_entities exSSOT9 "2024-06-01T12:00:00")⟩).ssot_updates = [] := by
  refine ⟨by decide, ?_⟩
  exact (C9_amended exSSOT9 [] "2024-06-01T12:00:00").2.2.2.2 (by decide)
